import Mathlib

/-! terraform-provider-netbox: JSON list data sources and the virtual machine resource

A shallow embedding of

* `netbox/data_netbox_json_*_list.go` (six JSON list data sources),
* `netbox/resource_netbox_virtualization_vm.go` (the virtual machine resource),
* `vendor/.../client/dcim/dcim_cables_update_parameters.go` (generated parameters).

Go callbacks of type `func(d *schema.ResourceData, m interface{}) error` become pure
functions from the resource data to a `Run`: the returned error, the resource data
after the call, and the API requests issued, in order.  The API client, the JSON
codec and the helpers of the provider that live in other files are parameters.
-/

namespace Netbox

/-! ## Go values -/

/-- A Go `error` value that is not nil. -/
abbrev GoError := String

/-- What a callback hands back to the plugin host: the `error` result, or a run-time
panic (nil pointer dereference). -/
inductive Ret where
  | nil
  | err (e : GoError)
  | panic
  deriving DecidableEq, Repr

/-- One element of a `schema.TypeSet` of nested resources: field name and value. -/
abbrev Item := List (String × String)

/-- The values `d.Get` returns and `d.Set` accepts for the schemas at hand.  A set is
held as its `List()`, which the SDK orders by element hash. -/
inductive Value where
  | null
  | int (i : Int)
  | str (s : String)
  | set (items : List Item)
  deriving DecidableEq, Repr

/-- The type assertion `.(int)` on a `TypeInt` attribute; unset reads as zero. -/
def Value.toInt : Value → Int
  | .int i => i
  | _ => 0

/-- The type assertion `.(string)` on a `TypeString` attribute; unset reads as "". -/
def Value.toStr : Value → String
  | .str s => s
  | _ => ""

/-- The call `.(*schema.Set).List()` on a `TypeSet` attribute. -/
def Value.toList : Value → List Item
  | .set xs => xs
  | _ => []

/-- Whether a value is the zero value of its schema type (or unset). -/
def Value.isZero : Value → Bool
  | .null => true
  | .int i => i == 0
  | .str s => s == ""
  | .set xs => xs.isEmpty

/-- What `d.Set` stores for a `*int64`: the pointee, or nil for a nil pointer. -/
def Value.ofInt64Ptr : Option Int → Value
  | some i => .int i
  | none => .null

/-- What `d.Set` stores for a `*string`: the pointee, or nil for a nil pointer. -/
def Value.ofStringPtr : Option String → Value
  | some s => .str s
  | none => .null

/-! ## schema.ResourceData -/

/-- The part of `schema.ResourceData` the callbacks touch.  `state` is the prior
state, `plan` the configuration merged with the planned diff, `writes` the `d.Set`
calls made so far (oldest first), `id0` the ID held at entry and `idWrites` the
`d.SetId` calls made so far (oldest first). -/
structure ResourceData where
  state : String → Value
  plan : String → Value
  writes : List (String × Value)
  id0 : String
  idWrites : List String

namespace ResourceData

/-- `d.Get(key)`: the latest `d.Set` of the key, else the planned value. -/
def Get (d : ResourceData) (key : String) : Value :=
  match d.writes.reverse.find? (fun w => w.1 == key) with
  | some w => w.2
  | none => d.plan key

/-- `d.Set(key, value)`. -/
def Set (d : ResourceData) (key : String) (value : Value) : ResourceData :=
  { d with writes := d.writes ++ [(key, value)] }

/-- `d.Id()`: the latest `d.SetId`, else the ID held at entry. -/
def Id (d : ResourceData) : String :=
  d.idWrites.getLast?.getD d.id0

/-- `d.SetId(v)`. -/
def SetId (d : ResourceData) (v : String) : ResourceData :=
  { d with idWrites := d.idWrites ++ [v] }

/-- `d.GetOk(key)`: the value, and whether it is set to something other than the
zero value of its type. -/
def GetOk (d : ResourceData) (key : String) : Value × Bool :=
  (d.Get key, !(d.Get key).isZero)

/-- `d.GetChange(key)`: the value in the prior state and the planned value. -/
def GetChange (d : ResourceData) (key : String) : Value × Value :=
  (d.state key, d.plan key)

/-- `d.HasChange(key)`: old and new differ; an unset value equals the zero value. -/
def HasChange (d : ResourceData) (key : String) : Bool :=
  let (o, n) := d.GetChange key
  !(o == n || (o.isZero && n.isZero))

end ResourceData

/-! ## strconv -/

/-- `strconv.FormatInt(i, 10)`. -/
def FormatInt (i : Int) : String :=
  match i with
  | .ofNat n => String.mk (Nat.toDigits 10 n)
  | .negSucc n => String.mk ('-' :: Nat.toDigits 10 (n + 1))

/-- The value of a run of ASCII decimal digits; `none` on any other character and
on the empty run. -/
def parseDigits : List Char → Option Nat
  | [] => none
  | cs => cs.foldl
      (fun acc c =>
        match acc with
        | none => none
        | some n => if c.isDigit then some (n * 10 + (c.toNat - 48)) else none)
      (some 0)

/-- `strconv.ParseInt(s, 10, 64)`: `none` stands for a non-nil error (syntax or
range). -/
def ParseInt (s : String) : Option Int :=
  match s.data with
  | [] => none
  | c :: rest =>
    let neg := c == '-'
    let ds := if c == '+' || c == '-' then rest else c :: rest
    match parseDigits ds with
    | none => none
    | some un =>
      if !neg && un ≥ 2 ^ 63 then none
      else if neg && un > 2 ^ 63 then none
      else some (if neg then -(un : Int) else (un : Int))

/-- `strings.Contains(s, ".")`. -/
def containsDot (s : String) : Bool :=
  s.data.contains '.'

/-! ## The API client -/

/-- Filters of a list endpoint as `NewXxxListParams()` builds them: every filter is a
nil pointer.  Only the two filters the provider ever sets are kept. -/
structure ListParams where
  ID : Option String := none
  Limit : Option Int := none
  deriving DecidableEq, Repr

/-- Body of a successful list response. -/
structure ListOKBody (ρ : Type) where
  Results : ρ

/-- A successful list response. -/
structure ListOK (ρ : Type) where
  Payload : ListOKBody ρ

/-- The list operations of the client the provider calls. -/
inductive Endpoint where
  | DcimConsoleConnectionsList
  | DcimConsoleServerPortsList
  | DcimInterfaceTemplatesList
  | DcimPowerPanelsList
  | ExtrasConfigContextsList
  | WirelessWirelessLinksList
  | VirtualizationVirtualMachinesList
  deriving DecidableEq, Repr

/-- A nested object of an API response (`models.NestedCluster`, `NestedPlatform`,
`NestedDeviceRole`, `NestedTenant`); only its ID is read. -/
structure Nested where
  ID : Int
  deriving DecidableEq, Repr

/-- The `Status` of a virtual machine in an API response; only `Value` is read. -/
structure VirtualMachineStatus where
  Value : Option String
  deriving DecidableEq, Repr

/-- The fields of `models.VirtualMachineWithConfigContext` the provider reads.  A
pointer field is an `Option`, nil being `none`: `Platform`, `Role` and `Tenant`,
which the source compares with nil, and `Cluster`, `Status` and `Vcpus`, which it
dereferences without a check.  `J` stands
for decoded JSON values, `F` for `float64`, `T` for `*models.NestedTag`. -/
structure VirtualMachineWithConfigContext (J F T : Type) where
  ID : Int
  Cluster : Option Nested
  Comments : String
  URL : String
  CustomFields : Option J
  Disk : Option Int
  LocalContextData : Option J
  Memory : Option Int
  Name : Option String
  Platform : Option Nested
  Role : Option Nested
  Status : Option VirtualMachineStatus
  Tags : List T
  Tenant : Option Nested
  Vcpus : Option F

/-- The fields of `models.WritableVirtualMachineWithConfigContext` the provider
writes; the defaults are the zero values of the Go struct literal.
`LocalContextData` is a field of interface type to which the source assigns a
`map[string]*interface{}`: `none` is the untouched nil interface (left out of the
request), `some m` the interface holding the map `m`, where `m = none` is the nil
map (sent as null). -/
structure WritableVirtualMachineWithConfigContext (J F T : Type) where
  Cluster : Option Int := none
  Comments : String := ""
  CustomFields : Option J := none
  Disk : Option Int := none
  LocalContextData : Option (Option J) := none
  Memory : Option Int := none
  Name : Option String := none
  Platform : Option Int := none
  Role : Option Int := none
  Status : String := ""
  Tags : List T := []
  Tenant : Option Int := none
  Vcpus : Option F := none

/-- An API request issued through the client. -/
inductive Call (J F T : Type) where
  | List (op : Endpoint) (params : Option ListParams)
  | VirtualizationVirtualMachinesCreate (data : WritableVirtualMachineWithConfigContext J F T)
  | VirtualizationVirtualMachinesPartialUpdate (id : Int)
      (data : WritableVirtualMachineWithConfigContext J F T)
  | VirtualizationVirtualMachinesDelete (id : Int)

/-- The sub-client `client.Dcim`. -/
structure DcimClient (ρ : Type) where
  DcimConsoleConnectionsList : Option ListParams → Except GoError (ListOK ρ)
  DcimConsoleServerPortsList : Option ListParams → Except GoError (ListOK ρ)
  DcimInterfaceTemplatesList : Option ListParams → Except GoError (ListOK ρ)
  DcimPowerPanelsList : Option ListParams → Except GoError (ListOK ρ)

/-- The sub-client `client.Extras`. -/
structure ExtrasClient (ρ : Type) where
  ExtrasConfigContextsList : Option ListParams → Except GoError (ListOK ρ)

/-- The sub-client `client.Wireless`. -/
structure WirelessClient (ρ : Type) where
  WirelessWirelessLinksList : Option ListParams → Except GoError (ListOK ρ)

/-- A successful create response; the payload is the created object. -/
structure VirtualizationVirtualMachinesCreateCreated (J F T : Type) where
  Payload : VirtualMachineWithConfigContext J F T

/-- The sub-client `client.Virtualization`. -/
structure VirtualizationClient (J F T : Type) where
  VirtualizationVirtualMachinesList :
    Option ListParams → Except GoError (ListOK (List (VirtualMachineWithConfigContext J F T)))
  VirtualizationVirtualMachinesCreate :
    WritableVirtualMachineWithConfigContext J F T →
      Except GoError (VirtualizationVirtualMachinesCreateCreated J F T)
  VirtualizationVirtualMachinesPartialUpdate :
    Int → WritableVirtualMachineWithConfigContext J F T → Except GoError Unit
  VirtualizationVirtualMachinesDelete : Int → Except GoError Unit

/-- The generated client `netboxclient.NetBoxAPI`: every operation answers a request
with a response or an error.  `ρ` stands for the `Results` of the JSON list
endpoints. -/
structure NetBoxAPI (ρ J F T : Type) where
  Dcim : DcimClient ρ
  Extras : ExtrasClient ρ
  Wireless : WirelessClient ρ
  Virtualization : VirtualizationClient J F T

/-- Library functions and provider helpers defined outside the translated files.
`jsonMarshal*` return the two results of `json.Marshal`; `jsonUnmarshal` decodes
into a `map[string]*interface{}` (which may stay nil); `ParseFloat` is the first
result of `strconv.ParseFloat(s, 32)`; `SprintfV` is `fmt.Sprintf("%v", f)`. -/
structure Lib (ρ J F T : Type) where
  jsonMarshalResults : ρ → String × Option GoError
  jsonMarshal : J → String × Option GoError
  jsonUnmarshal : String → Except GoError (Option J)
  ParseFloat : String → F
  SprintfV : F → String
  convertCustomFieldsFromTerraformToAPI : List Item → List Item → J
  convertTagsToNestedTags : List Item → List T
  convertURIContentType : String → String
  updateCustomFieldsFromAPI : List Item → Option J → List Item
  convertNestedTagsToTags : List T → List Item

/-- Outcome of running a callback: what it returns, the resource data it leaves and
the API requests it issued, in order. -/
structure Run (J F T : Type) where
  ret : Ret
  d : ResourceData
  calls : List (Call J F T)

/-! ## JSON list data sources -/

section DataSources

variable {ρ J F T : Type}

/-- One attribute of a `schema.Resource`: its type name and the flags and default
the source gives. -/
structure Schema where
  type : String
  optional : Bool := false
  computed : Bool := false
  default : Option Value := none
  deriving DecidableEq, Repr

/-- Schema shared by the data sources that take a limit. -/
def limitJSONSchema : List (String × Schema) :=
  [("limit", { type := "TypeInt", optional := true, default := some (.int 0) }),
   ("json", { type := "TypeString", computed := true })]

/-- Schema of `dataNetboxJSONDcimConsoleConnectionsList`. -/
def dataNetboxJSONDcimConsoleConnectionsList : List (String × Schema) := limitJSONSchema

/-- Schema of `dataNetboxJSONDcimConsoleServerPortsList`. -/
def dataNetboxJSONDcimConsoleServerPortsList : List (String × Schema) := limitJSONSchema

/-- Schema of `dataNetboxJSONDcimInterfaceTemplatesList`. -/
def dataNetboxJSONDcimInterfaceTemplatesList : List (String × Schema) := limitJSONSchema

/-- Schema of `dataNetboxJSONDcimPowerPanelsList`. -/
def dataNetboxJSONDcimPowerPanelsList : List (String × Schema) := limitJSONSchema

/-- Schema of `dataNetboxJSONWirelessWirelessLinksList`. -/
def dataNetboxJSONWirelessWirelessLinksList : List (String × Schema) := limitJSONSchema

/-- Schema of `dataNetboxJSONExtrasConfigContextsList`: no limit attribute. -/
def dataNetboxJSONExtrasConfigContextsList : List (String × Schema) :=
  [("json", { type := "TypeString", computed := true })]

/-- Read callback of the console connections data source. -/
def dataNetboxJSONDcimConsoleConnectionsListRead (lib : Lib ρ J F T) (d : ResourceData)
    (client : NetBoxAPI ρ J F T) : Run J F T :=
  let params : ListParams := {}
  let limit : Int := (d.Get "limit").toInt
  let params := { params with Limit := some limit }
  let calls := [Call.List .DcimConsoleConnectionsList (some params)]
  match client.Dcim.DcimConsoleConnectionsList (some params) with
  | .error err => ⟨.err err, d, calls⟩
  | .ok list =>
    let j := (lib.jsonMarshalResults list.Payload.Results).1
    let d := d.Set "json" (.str j)
    let d := d.SetId "NetboxJSONDcimConsoleConnectionsList"
    ⟨.nil, d, calls⟩

/-- Read callback of the console server ports data source. -/
def dataNetboxJSONDcimConsoleServerPortsListRead (lib : Lib ρ J F T) (d : ResourceData)
    (client : NetBoxAPI ρ J F T) : Run J F T :=
  let params : ListParams := {}
  let limit : Int := (d.Get "limit").toInt
  let params := { params with Limit := some limit }
  let calls := [Call.List .DcimConsoleServerPortsList (some params)]
  match client.Dcim.DcimConsoleServerPortsList (some params) with
  | .error err => ⟨.err err, d, calls⟩
  | .ok list =>
    let j := (lib.jsonMarshalResults list.Payload.Results).1
    let d := d.Set "json" (.str j)
    let d := d.SetId "NetboxJSONDcimConsoleServerPortsList"
    ⟨.nil, d, calls⟩

/-- Read callback of the interface templates data source. -/
def dataNetboxJSONDcimInterfaceTemplatesListRead (lib : Lib ρ J F T) (d : ResourceData)
    (client : NetBoxAPI ρ J F T) : Run J F T :=
  let params : ListParams := {}
  let limit : Int := (d.Get "limit").toInt
  let params := { params with Limit := some limit }
  let calls := [Call.List .DcimInterfaceTemplatesList (some params)]
  match client.Dcim.DcimInterfaceTemplatesList (some params) with
  | .error err => ⟨.err err, d, calls⟩
  | .ok list =>
    let j := (lib.jsonMarshalResults list.Payload.Results).1
    let d := d.Set "json" (.str j)
    let d := d.SetId "NetboxJSONDcimInterfaceTemplatesList"
    ⟨.nil, d, calls⟩

/-- Read callback of the power panels data source. -/
def dataNetboxJSONDcimPowerPanelsListRead (lib : Lib ρ J F T) (d : ResourceData)
    (client : NetBoxAPI ρ J F T) : Run J F T :=
  let params : ListParams := {}
  let limit : Int := (d.Get "limit").toInt
  let params := { params with Limit := some limit }
  let calls := [Call.List .DcimPowerPanelsList (some params)]
  match client.Dcim.DcimPowerPanelsList (some params) with
  | .error err => ⟨.err err, d, calls⟩
  | .ok list =>
    let j := (lib.jsonMarshalResults list.Payload.Results).1
    let d := d.Set "json" (.str j)
    let d := d.SetId "NetboxJSONDcimPowerPanelsList"
    ⟨.nil, d, calls⟩

/-- Read callback of the config contexts data source: the list call gets nil
parameters. -/
def dataNetboxJSONExtrasConfigContextsListRead (lib : Lib ρ J F T) (d : ResourceData)
    (client : NetBoxAPI ρ J F T) : Run J F T :=
  let calls := [Call.List .ExtrasConfigContextsList none]
  match client.Extras.ExtrasConfigContextsList none with
  | .error err => ⟨.err err, d, calls⟩
  | .ok list =>
    let j := (lib.jsonMarshalResults list.Payload.Results).1
    let d := d.Set "json" (.str j)
    let d := d.SetId "NetboxJSONExtrasConfigContextsList"
    ⟨.nil, d, calls⟩

/-- Read callback of the wireless links data source. -/
def dataNetboxJSONWirelessWirelessLinksListRead (lib : Lib ρ J F T) (d : ResourceData)
    (client : NetBoxAPI ρ J F T) : Run J F T :=
  let params : ListParams := {}
  let limit : Int := (d.Get "limit").toInt
  let params := { params with Limit := some limit }
  let calls := [Call.List .WirelessWirelessLinksList (some params)]
  match client.Wireless.WirelessWirelessLinksList (some params) with
  | .error err => ⟨.err err, d, calls⟩
  | .ok list =>
    let j := (lib.jsonMarshalResults list.Payload.Results).1
    let d := d.Set "json" (.str j)
    let d := d.SetId "NetboxJSONWirelessWirelessLinksList"
    ⟨.nil, d, calls⟩

/-- The six JSON list data sources. -/
inductive JSONDataSource where
  | DcimConsoleConnections
  | DcimConsoleServerPorts
  | DcimInterfaceTemplates
  | DcimPowerPanels
  | ExtrasConfigContexts
  | WirelessWirelessLinks
  deriving DecidableEq, Repr

namespace JSONDataSource

/-- The Read callback registered by the data source. -/
def Read (ds : JSONDataSource) (lib : Lib ρ J F T) (d : ResourceData)
    (client : NetBoxAPI ρ J F T) : Run J F T :=
  match ds with
  | DcimConsoleConnections => dataNetboxJSONDcimConsoleConnectionsListRead lib d client
  | DcimConsoleServerPorts => dataNetboxJSONDcimConsoleServerPortsListRead lib d client
  | DcimInterfaceTemplates => dataNetboxJSONDcimInterfaceTemplatesListRead lib d client
  | DcimPowerPanels => dataNetboxJSONDcimPowerPanelsListRead lib d client
  | ExtrasConfigContexts => dataNetboxJSONExtrasConfigContextsListRead lib d client
  | WirelessWirelessLinks => dataNetboxJSONWirelessWirelessLinksListRead lib d client

/-- The schema registered by the data source. -/
def schema : JSONDataSource → List (String × Schema)
  | DcimConsoleConnections => dataNetboxJSONDcimConsoleConnectionsList
  | DcimConsoleServerPorts => dataNetboxJSONDcimConsoleServerPortsList
  | DcimInterfaceTemplates => dataNetboxJSONDcimInterfaceTemplatesList
  | DcimPowerPanels => dataNetboxJSONDcimPowerPanelsList
  | ExtrasConfigContexts => dataNetboxJSONExtrasConfigContextsList
  | WirelessWirelessLinks => dataNetboxJSONWirelessWirelessLinksList

/-- The list operation of the client behind the data source. -/
def endpoint : JSONDataSource → Endpoint
  | DcimConsoleConnections => .DcimConsoleConnectionsList
  | DcimConsoleServerPorts => .DcimConsoleServerPortsList
  | DcimInterfaceTemplates => .DcimInterfaceTemplatesList
  | DcimPowerPanels => .DcimPowerPanelsList
  | ExtrasConfigContexts => .ExtrasConfigContextsList
  | WirelessWirelessLinks => .WirelessWirelessLinksList

/-- The answer of the client to the list operation behind the data source. -/
def list (ds : JSONDataSource) (client : NetBoxAPI ρ J F T) :
    Option ListParams → Except GoError (ListOK ρ) :=
  match ds with
  | DcimConsoleConnections => client.Dcim.DcimConsoleConnectionsList
  | DcimConsoleServerPorts => client.Dcim.DcimConsoleServerPortsList
  | DcimInterfaceTemplates => client.Dcim.DcimInterfaceTemplatesList
  | DcimPowerPanels => client.Dcim.DcimPowerPanelsList
  | ExtrasConfigContexts => client.Extras.ExtrasConfigContextsList
  | WirelessWirelessLinks => client.Wireless.WirelessWirelessLinksList

/-- Whether the schema of the data source declares the attribute. -/
def hasAttribute (ds : JSONDataSource) (key : String) : Bool :=
  ds.schema.any (fun f => f.1 == key)

/-- The list parameters a Read of the data source is expected to send: the limit
where the schema has one, nil parameters otherwise. -/
def request (ds : JSONDataSource) (d : ResourceData) : Option ListParams :=
  if ds.hasAttribute "limit" then some { Limit := some (d.Get "limit").toInt } else none

/-- The string literal the Read callback passes to `d.SetId`. -/
def fixedID : JSONDataSource → String
  | DcimConsoleConnections => "NetboxJSONDcimConsoleConnectionsList"
  | DcimConsoleServerPorts => "NetboxJSONDcimConsoleServerPortsList"
  | DcimInterfaceTemplates => "NetboxJSONDcimInterfaceTemplatesList"
  | DcimPowerPanels => "NetboxJSONDcimPowerPanelsList"
  | ExtrasConfigContexts => "NetboxJSONExtrasConfigContextsList"
  | WirelessWirelessLinks => "NetboxJSONWirelessWirelessLinksList"

end JSONDataSource

end DataSources

/-! ## The virtual machine resource -/

section VirtualMachine

variable {ρ J F T : Type}

/-- Lines 230 to 323 of `resourceNetboxVirtualizationVMRead`: the body run for the
first listed result whose ID matches.  Every `d.Set` here writes an attribute of
the schema with a value of its type and returns no error.  The dereferences of
`resource.Cluster` (line 230), `resource.Status` (line 301) and `resource.Vcpus`
(line 319) panic on a nil pointer, before the `d.Set` they feed. -/
def resourceNetboxVirtualizationVMRead.setAll (lib : Lib ρ J F T) (d : ResourceData)
    (resource : VirtualMachineWithConfigContext J F T) : Ret × ResourceData :=
  match resource.Cluster with
  | none => (.panic, d)
  | some cluster =>
    let d := d.Set "cluster_id" (.int cluster.ID)
    let comments : Value := if resource.Comments == "" then .null else .str resource.Comments
    let d := d.Set "comments" comments
    let d := d.Set "content_type" (.str (lib.convertURIContentType resource.URL))
    let resourceCustomFields := (d.Get "custom_field").toList
    let customFields := lib.updateCustomFieldsFromAPI resourceCustomFields resource.CustomFields
    let d := d.Set "custom_field" (.set customFields)
    let d := d.Set "disk" (.ofInt64Ptr resource.Disk)
    let afterLocalContextData : Except GoError ResourceData :=
      match resource.LocalContextData with
      | some localContextData =>
        match lib.jsonMarshal localContextData with
        | (_, some err) => .error err
        | (localContextDataJSON, none) =>
          .ok (d.Set "local_context_data" (.str localContextDataJSON))
      | none => .ok (d.Set "local_context_data" (.str ""))
    match afterLocalContextData with
    | .error err => (.err err, d)
    | .ok d =>
      let d := d.Set "memory" (.ofInt64Ptr resource.Memory)
      let d := d.Set "name" (.ofStringPtr resource.Name)
      let d :=
        match resource.Platform with
        | none => d.Set "platform_id" (.int 0)
        | some platform => d.Set "platform_id" (.int platform.ID)
      let d :=
        match resource.Role with
        | none => d.Set "role_id" (.int 0)
        | some role => d.Set "role_id" (.int role.ID)
      match resource.Status with
      | none => (.panic, d)
      | some status =>
        let d := d.Set "status" (.ofStringPtr status.Value)
        let d := d.Set "tag" (.set (lib.convertNestedTagsToTags resource.Tags))
        let d :=
          match resource.Tenant with
          | none => d.Set "tenant_id" (.int 0)
          | some tenant => d.Set "tenant_id" (.int tenant.ID)
        match resource.Vcpus with
        | none => (.panic, d)
        | some vcpus =>
          let d := d.Set "vcpus" (.str (lib.SprintfV vcpus))
          (.nil, d)

/-- Read callback of the virtual machine resource.  The loop returns inside its
first matching iteration, so it is a search for the first match. -/
def resourceNetboxVirtualizationVMRead (lib : Lib ρ J F T) (d : ResourceData)
    (client : NetBoxAPI ρ J F T) : Run J F T :=
  let resourceID := d.Id
  let params : ListParams := { ID := some resourceID }
  let calls := [Call.List .VirtualizationVirtualMachinesList (some params)]
  match client.Virtualization.VirtualizationVirtualMachinesList (some params) with
  | .error err => ⟨.err err, d, calls⟩
  | .ok resources =>
    match resources.Payload.Results.find? (fun resource => FormatInt resource.ID == d.Id) with
    | some resource =>
      let r := resourceNetboxVirtualizationVMRead.setAll lib d resource
      ⟨r.1, r.2, calls⟩
    | none => ⟨.nil, d.SetId "", calls⟩

/-- Lines 141 to 200 of `resourceNetboxVirtualizationVMCreate`: the request body,
or the error of decoding `local_context_data`. -/
def resourceNetboxVirtualizationVMCreate.newResource (lib : Lib ρ J F T) (d : ResourceData) :
    Except GoError (WritableVirtualMachineWithConfigContext J F T) :=
  let clusterID : Int := (d.Get "cluster_id").toInt
  let comments := (d.Get "comments").toStr
  let resourceCustomFields := (d.Get "custom_field").toList
  let customFields := lib.convertCustomFieldsFromTerraformToAPI [] resourceCustomFields
  let disk : Int := (d.Get "disk").toInt
  let localContextData := (d.Get "local_context_data").toStr
  let memory : Int := (d.Get "memory").toInt
  let name := (d.Get "name").toStr
  let platformID : Int := (d.Get "platform_id").toInt
  let roleID : Int := (d.Get "role_id").toInt
  let status := (d.Get "status").toStr
  let tags := (d.Get "tag").toList
  let tenantID : Int := (d.Get "tenant_id").toInt
  let vcpus := (d.Get "vcpus").toStr
  let vcpus := if !containsDot vcpus then vcpus ++ ".00" else vcpus
  let newResource : WritableVirtualMachineWithConfigContext J F T :=
    { Cluster := some clusterID
      Comments := comments
      CustomFields := some customFields
      Name := some name
      Status := status
      Tags := lib.convertTagsToNestedTags tags }
  let newResource := if disk != 0 then { newResource with Disk := some disk } else newResource
  let newResource :=
    if memory != 0 then { newResource with Memory := some memory } else newResource
  let afterLocalContextData : Except GoError (WritableVirtualMachineWithConfigContext J F T) :=
    if localContextData != "" then
      match lib.jsonUnmarshal localContextData with
      | .error err => .error err
      | .ok localContextDataMap =>
        .ok { newResource with LocalContextData := some localContextDataMap }
    else .ok newResource
  match afterLocalContextData with
  | .error err => .error err
  | .ok newResource =>
    let newResource :=
      if platformID != 0 then { newResource with Platform := some platformID } else newResource
    let newResource :=
      if roleID != 0 then { newResource with Role := some roleID } else newResource
    let newResource :=
      if tenantID != 0 then { newResource with Tenant := some tenantID } else newResource
    let newResource :=
      if vcpus != "" then { newResource with Vcpus := some (lib.ParseFloat vcpus) }
      else newResource
    .ok newResource

/-- Create callback of the virtual machine resource. -/
def resourceNetboxVirtualizationVMCreate (lib : Lib ρ J F T) (d : ResourceData)
    (client : NetBoxAPI ρ J F T) : Run J F T :=
  match resourceNetboxVirtualizationVMCreate.newResource lib d with
  | .error err => ⟨.err err, d, []⟩
  | .ok newResource =>
    let calls := [Call.VirtualizationVirtualMachinesCreate newResource]
    match client.Virtualization.VirtualizationVirtualMachinesCreate newResource with
    | .error err => ⟨.err err, d, calls⟩
    | .ok resourceCreated =>
      let d := d.SetId (FormatInt resourceCreated.Payload.ID)
      let r := resourceNetboxVirtualizationVMRead lib d client
      ⟨r.ret, r.d, calls ++ r.calls⟩

/-- Lines 334 to 409 of `resourceNetboxVirtualizationVMUpdate`: the request body, or
the error of decoding `local_context_data`. -/
def resourceNetboxVirtualizationVMUpdate.params (lib : Lib ρ J F T) (d : ResourceData) :
    Except GoError (WritableVirtualMachineWithConfigContext J F T) :=
  let params : WritableVirtualMachineWithConfigContext J F T := {}
  let name := (d.Get "name").toStr
  let params := { params with Name := some name }
  let clusterID : Int := (d.Get "cluster_id").toInt
  let params := { params with Cluster := some clusterID }
  let params :=
    if d.HasChange "comments" then
      let (comments, exist) := d.GetOk "comments"
      if exist then { params with Comments := comments.toStr }
      else { params with Comments := " " }
    else params
  let params :=
    if d.HasChange "custom_field" then
      let (stateCustomFields, resourceCustomFields) := d.GetChange "custom_field"
      let customFields := lib.convertCustomFieldsFromTerraformToAPI
        stateCustomFields.toList resourceCustomFields.toList
      { params with CustomFields := some customFields }
    else params
  let params :=
    if d.HasChange "disk" then { params with Disk := some (d.Get "disk").toInt } else params
  let afterLocalContextData : Except GoError (WritableVirtualMachineWithConfigContext J F T) :=
    if d.HasChange "local_context_data" then
      let localContextData := (d.Get "local_context_data").toStr
      if localContextData == "" then .ok { params with LocalContextData := some none }
      else
        match lib.jsonUnmarshal localContextData with
        | .error err => .error err
        | .ok localContextDataMap =>
          .ok { params with LocalContextData := some localContextDataMap }
    else .ok params
  match afterLocalContextData with
  | .error err => .error err
  | .ok params =>
    let params :=
      if d.HasChange "memory" then { params with Memory := some (d.Get "memory").toInt }
      else params
    let params :=
      if d.HasChange "platform_id" then
        { params with Platform := some (d.Get "platform_id").toInt }
      else params
    let params :=
      if d.HasChange "role_id" then { params with Role := some (d.Get "role_id").toInt }
      else params
    let params :=
      if d.HasChange "status" then { params with Status := (d.Get "status").toStr }
      else params
    let tags := (d.Get "tag").toList
    let params := { params with Tags := lib.convertTagsToNestedTags tags }
    let params :=
      if d.HasChange "tenant_id" then { params with Tenant := some (d.Get "tenant_id").toInt }
      else params
    let params :=
      if d.HasChange "vcpus" then
        let vcpus := (d.Get "vcpus").toStr
        let vcpus := if !containsDot vcpus then vcpus ++ ".00" else vcpus
        { params with Vcpus := some (lib.ParseFloat vcpus) }
      else params
    .ok params

/-- Update callback of the virtual machine resource. -/
def resourceNetboxVirtualizationVMUpdate (lib : Lib ρ J F T) (d : ResourceData)
    (client : NetBoxAPI ρ J F T) : Run J F T :=
  match resourceNetboxVirtualizationVMUpdate.params lib d with
  | .error err => ⟨.err err, d, []⟩
  | .ok params =>
    match ParseInt d.Id with
    | none => ⟨.err "Unable to convert ID into int64", d, []⟩
    | some resourceID =>
      let calls := [Call.VirtualizationVirtualMachinesPartialUpdate resourceID params]
      match client.Virtualization.VirtualizationVirtualMachinesPartialUpdate resourceID params with
      | .error err => ⟨.err err, d, calls⟩
      | .ok _ =>
        let r := resourceNetboxVirtualizationVMRead lib d client
        ⟨r.ret, r.d, calls ++ r.calls⟩

/-- Exists callback of the virtual machine resource: the two results and the API
requests issued. -/
def resourceNetboxVirtualizationVMExists (d : ResourceData) (client : NetBoxAPI ρ J F T) :
    Bool × Option GoError × List (Call J F T) :=
  let resourceExist := false
  let resourceID := d.Id
  let params : ListParams := { ID := some resourceID }
  let calls := [Call.List .VirtualizationVirtualMachinesList (some params)]
  match client.Virtualization.VirtualizationVirtualMachinesList (some params) with
  | .error err => (resourceExist, some err, calls)
  | .ok resources =>
    let resourceExist := resources.Payload.Results.foldl
      (fun resourceExist resource =>
        if FormatInt resource.ID == d.Id then true else resourceExist)
      resourceExist
    (resourceExist, none, calls)

/-- Delete callback of the virtual machine resource. -/
def resourceNetboxVirtualizationVMDelete (d : ResourceData) (client : NetBoxAPI ρ J F T) :
    Run J F T :=
  match resourceNetboxVirtualizationVMExists d client with
  | (_, some err, calls) => ⟨.err err, d, calls⟩
  | (resourceExists, none, calls) =>
    if !resourceExists then ⟨.nil, d, calls⟩
    else
      match ParseInt d.Id with
      | none => ⟨.err "Unable to convert ID into int64", d, calls⟩
      | some id =>
        let calls := calls ++ [Call.VirtualizationVirtualMachinesDelete id]
        match client.Virtualization.VirtualizationVirtualMachinesDelete id with
        | .error err => ⟨.err err, d, calls⟩
        | .ok _ => ⟨.nil, d, calls⟩

end VirtualMachine

/-! ## Generated parameters of the dcim cables update operation -/

section DcimCablesUpdate

variable {W C H : Type}

/-- The struct `DcimCablesUpdateParams`: `W` stands for `models.WritableCable`, `C`
for `context.Context`, `H` for `http.Client`; `timeout` is a `time.Duration`. -/
structure DcimCablesUpdateParams (W C H : Type) where
  Data : Option W := none
  ID : Int := 0
  timeout : Int := 0
  Context : Option C := none
  HTTPClient : Option H := none

/-- `NewDcimCablesUpdateParams()`, given the client runtime's `DefaultTimeout`. -/
def NewDcimCablesUpdateParams (DefaultTimeout : Int) : DcimCablesUpdateParams W C H :=
  { timeout := DefaultTimeout }

namespace DcimCablesUpdateParams

/-- The method `SetDefaults`: the body holds a comment only. -/
def SetDefaults (o : DcimCablesUpdateParams W C H) : DcimCablesUpdateParams W C H :=
  o

/-- The method `WithDefaults`: calls `SetDefaults` and returns the receiver. -/
def WithDefaults (o : DcimCablesUpdateParams W C H) : DcimCablesUpdateParams W C H :=
  let o := o.SetDefaults
  o

/-- The method `SetData`. -/
def SetData (o : DcimCablesUpdateParams W C H) (data : Option W) :
    DcimCablesUpdateParams W C H :=
  { o with Data := data }

/-- The method `WithData`. -/
def WithData (o : DcimCablesUpdateParams W C H) (data : Option W) :
    DcimCablesUpdateParams W C H :=
  let o := o.SetData data
  o

/-- The method `SetID`. -/
def SetID (o : DcimCablesUpdateParams W C H) (id : Int) : DcimCablesUpdateParams W C H :=
  { o with ID := id }

/-- The method `WithID`. -/
def WithID (o : DcimCablesUpdateParams W C H) (id : Int) : DcimCablesUpdateParams W C H :=
  let o := o.SetID id
  o

end DcimCablesUpdateParams

end DcimCablesUpdate

/-! ## Concrete clients and resource data for worked runs -/

section Worked

/-- Stand-ins for the library functions: results are lists of strings encoded by
concatenation, JSON values and tags are strings, floats are naturals. -/
def demoLib : Lib (List String) String Nat String where
  jsonMarshalResults := fun r => (String.join r, none)
  jsonMarshal := fun j => (j, none)
  jsonUnmarshal := fun s => if s == "bad" then .error "invalid character" else .ok (some s)
  ParseFloat := fun s => s.length
  SprintfV := fun f => FormatInt f
  convertCustomFieldsFromTerraformToAPI := fun old new => String.join ((old ++ new).map
    (fun item => String.join (item.map (fun kv => kv.2))))
  convertTagsToNestedTags := fun tags => tags.map (fun item => String.join (item.map (fun kv => kv.2)))
  convertURIContentType := fun url => url
  updateCustomFieldsFromAPI := fun items _ => items
  convertNestedTagsToTags := fun tags => tags.map (fun t => [("name", t)])

/-- A client answering every JSON list operation with `list` and the virtual machine
operations with the given answers. -/
def demoClient (list : Except GoError (List String))
    (vms : Except GoError (List (VirtualMachineWithConfigContext String Nat String)))
    (created : Except GoError Int) (written : Except GoError Unit) :
    NetBoxAPI (List String) String Nat String where
  Dcim :=
    { DcimConsoleConnectionsList := fun _ => list.map (fun r => ⟨⟨r⟩⟩)
      DcimConsoleServerPortsList := fun _ => list.map (fun r => ⟨⟨r⟩⟩)
      DcimInterfaceTemplatesList := fun _ => list.map (fun r => ⟨⟨r⟩⟩)
      DcimPowerPanelsList := fun _ => list.map (fun r => ⟨⟨r⟩⟩) }
  Extras := { ExtrasConfigContextsList := fun _ => list.map (fun r => ⟨⟨r⟩⟩) }
  Wireless := { WirelessWirelessLinksList := fun _ => list.map (fun r => ⟨⟨r⟩⟩) }
  Virtualization :=
    { VirtualizationVirtualMachinesList := fun _ => vms.map (fun r => ⟨⟨r⟩⟩)
      VirtualizationVirtualMachinesCreate := fun _ => created.map (fun id =>
        ⟨{ ID := id, Cluster := some ⟨1⟩, Comments := "", URL := "", CustomFields := none,
           Disk := none, LocalContextData := none, Memory := none, Name := none,
           Platform := none, Role := none, Status := some ⟨none⟩, Tags := [], Tenant := none,
           Vcpus := none }⟩)
      VirtualizationVirtualMachinesPartialUpdate := fun _ _ => written
      VirtualizationVirtualMachinesDelete := fun _ => written }

/-- Resource data with the given ID, prior state and plan, and no writes yet. -/
def demoData (id : String) (state plan : List (String × Value)) : ResourceData where
  state := fun k => (state.lookup k).getD .null
  plan := fun k => (plan.lookup k).getD .null
  writes := []
  id0 := id
  idWrites := []

/-- The cluster of the listed virtual machines. -/
def demoCluster : Nested := ⟨3⟩

/-- The status of the listed virtual machines. -/
def demoStatus : VirtualMachineStatus := ⟨some "active"⟩

/-- A listed virtual machine with the given ID and otherwise fixed fields. -/
def demoVM (id : Int) (localContextData : Option String) (vcpus : Option Nat) :
    VirtualMachineWithConfigContext String Nat String :=
  { ID := id, Cluster := some demoCluster, Comments := "", URL := "/api/virtualization/virtual-machines/",
    CustomFields := none, Disk := some 20, LocalContextData := localContextData,
    Memory := none, Name := some "vm1", Platform := some ⟨5⟩, Role := none,
    Status := some demoStatus, Tags := ["t"], Tenant := none, Vcpus := vcpus }

/-- Resource data of a JSON list data source configured with the given limit. -/
def demoLimitData (limit : Int) : ResourceData :=
  demoData "" [] [("limit", .int limit)]

/-- A client whose list operations answer with the two results "a" and "b". -/
def demoListClient : NetBoxAPI (List String) String Nat String :=
  demoClient (.ok ["a", "b"]) (.ok []) (.ok 1) (.ok ())

/-- A client whose every operation answers with the error "503". -/
def demoDownClient : NetBoxAPI (List String) String Nat String :=
  demoClient (.error "503") (.error "503") (.error "503") (.error "503")

/-- Resource data of a virtual machine about to be created. -/
def demoVMData : ResourceData :=
  demoData "" []
    [("cluster_id", .int 3), ("name", .str "vm1"), ("status", .str "active"),
     ("disk", .int 20), ("vcpus", .str "2")]

/-- The request body Create builds from `demoVMData` with `demoLib`. -/
def demoBody : WritableVirtualMachineWithConfigContext String Nat String :=
  { Cluster := some 3, Comments := "", CustomFields := some "", Disk := some 20,
    Name := some "vm1", Status := "active", Tags := [], Vcpus := some 4 }

/-- A client that creates the virtual machine with ID 7 and lists no virtual
machine. -/
def demoCreateClient : NetBoxAPI (List String) String Nat String :=
  demoClient (.ok []) (.ok []) (.ok 7) (.ok ())

/-- Resource data of the virtual machine with ID "7", nothing planned. -/
def demoReadData : ResourceData :=
  demoData "7" [] []

/-- A client that lists the virtual machine 7, without local context data. -/
def demoReadClient : NetBoxAPI (List String) String Nat String :=
  demoClient (.ok []) (.ok [demoVM 7 none (some 2)]) (.ok 7) (.ok ())

/-- The virtual machine 7 as an answer that carries no cluster. -/
def demoVMNoCluster : VirtualMachineWithConfigContext String Nat String :=
  { demoVM 7 none (some 2) with Cluster := none }

/-- The virtual machine 7 as an answer that carries no status. -/
def demoVMNoStatus : VirtualMachineWithConfigContext String Nat String :=
  { demoVM 7 none (some 2) with Status := none }

/-- A client that lists the virtual machine 7 without its cluster. -/
def demoNoClusterClient : NetBoxAPI (List String) String Nat String :=
  demoClient (.ok []) (.ok [demoVMNoCluster]) (.ok 7) (.ok ())

/-- A client that lists the virtual machine 7 without its status. -/
def demoNoStatusClient : NetBoxAPI (List String) String Nat String :=
  demoClient (.ok []) (.ok [demoVMNoStatus]) (.ok 7) (.ok ())

/-- A client that lists the virtual machine 8 only. -/
def demoOtherClient : NetBoxAPI (List String) String Nat String :=
  demoClient (.ok []) (.ok [demoVM 8 none (some 2)]) (.ok 7) (.ok ())

/-- Resource data of the virtual machine "7" with comments and local context data
removed and disk changed from 20 to 40 in the plan. -/
def demoUpdateData : ResourceData :=
  demoData "7"
    [("cluster_id", .int 3), ("name", .str "vm1"), ("comments", .str "old"), ("disk", .int 20),
     ("local_context_data", .str "ctx")]
    [("cluster_id", .int 3), ("name", .str "vm1"), ("disk", .int 40)]

/-- The request body Update builds from `demoUpdateData` with `demoLib`. -/
def demoUpdateBody : WritableVirtualMachineWithConfigContext String Nat String :=
  { Cluster := some 3, Comments := " ", Disk := some 40, LocalContextData := some none,
    Name := some "vm1", Tags := [] }

/-- Parameters of a cables update with data and ID filled in. -/
def demoCableParams : DcimCablesUpdateParams String Unit Unit :=
  ((NewDcimCablesUpdateParams 30).WithData (some "cable")).WithID 5

/-- Resource data of a virtual machine about to be created with vcpus not set. -/
def demoNoVcpusData : ResourceData :=
  demoData "" [] [("cluster_id", .int 3), ("name", .str "vm1"), ("status", .str "active")]

/-- The request body Create builds from `demoNoVcpusData` with `demoLib`. -/
def demoNoVcpusBody : WritableVirtualMachineWithConfigContext String Nat String :=
  { Cluster := some 3, Comments := "", CustomFields := some "", Name := some "vm1",
    Status := "active", Tags := [], Vcpus := some (demoLib.ParseFloat ".00") }

end Worked

/-! ## Basic facts about the resource data -/

theorem ResourceData.Get_Set_same (d : ResourceData) (k : String) (v : Value) :
    (d.Set k v).Get k = v := by
  simp [ResourceData.Get, ResourceData.Set]

theorem ResourceData.Get_Set_other (d : ResourceData) (k key : String) (v : Value)
    (h : (k == key) = false) : (d.Set k v).Get key = d.Get key := by
  simp [ResourceData.Get, ResourceData.Set, h]

theorem ResourceData.Id_SetId (d : ResourceData) (v : String) : (d.SetId v).Id = v := by
  simp [ResourceData.Id, ResourceData.SetId]

/-! ## JSON list data sources: what Read does -/

section DataSourceTheorems

variable {ρ J F T : Type}

/-- C1: for each of the six JSON list data sources and every successful list
response, Read returns no error, its only attribute write is "json" with the
encoding `json.Marshal` returns for `Payload.Results`, and its only ID write is the
fixed literal of the data source, which is then the resource ID. -/
theorem json_list_read_success (ds : JSONDataSource) (lib : Lib ρ J F T) (d : ResourceData)
    (client : NetBoxAPI ρ J F T) (list : ListOK ρ)
    (h : ds.list client (ds.request d) = .ok list) :
    (ds.Read lib d client).ret = .nil ∧
    (ds.Read lib d client).d.writes
      = d.writes ++ [("json", .str (lib.jsonMarshalResults list.Payload.Results).1)] ∧
    (ds.Read lib d client).d.Get "json"
      = .str (lib.jsonMarshalResults list.Payload.Results).1 ∧
    (ds.Read lib d client).d.idWrites = d.idWrites ++ [ds.fixedID] ∧
    (ds.Read lib d client).d.Id = ds.fixedID := by
  cases ds <;>
    simp [JSONDataSource.list, JSONDataSource.request, JSONDataSource.hasAttribute,
      JSONDataSource.schema, dataNetboxJSONDcimConsoleConnectionsList,
      dataNetboxJSONDcimConsoleServerPortsList, dataNetboxJSONDcimInterfaceTemplatesList,
      dataNetboxJSONDcimPowerPanelsList, dataNetboxJSONExtrasConfigContextsList,
      dataNetboxJSONWirelessWirelessLinksList, limitJSONSchema] at h <;>
    simp only [JSONDataSource.Read, JSONDataSource.fixedID,
      dataNetboxJSONDcimConsoleConnectionsListRead,
      dataNetboxJSONDcimConsoleServerPortsListRead,
      dataNetboxJSONDcimInterfaceTemplatesListRead, dataNetboxJSONDcimPowerPanelsListRead,
      dataNetboxJSONExtrasConfigContextsListRead, dataNetboxJSONWirelessWirelessLinksListRead,
      h] <;>
    simp [ResourceData.Get, ResourceData.Set, ResourceData.SetId, ResourceData.Id]

/-- C2: for each of the six JSON list data sources, when the list call answers with
an error, Read returns that error, the list call is the only API request issued,
and the resource data is left as it was: no attribute and no ID is written. -/
theorem json_list_read_error (ds : JSONDataSource) (lib : Lib ρ J F T) (d : ResourceData)
    (client : NetBoxAPI ρ J F T) (e : GoError)
    (h : ds.list client (ds.request d) = .error e) :
    (ds.Read lib d client).ret = .err e ∧
    (ds.Read lib d client).calls = [Call.List ds.endpoint (ds.request d)] ∧
    (ds.Read lib d client).d = d ∧
    (ds.Read lib d client).d.writes = d.writes ∧
    (ds.Read lib d client).d.idWrites = d.idWrites := by
  cases ds <;>
    simp [JSONDataSource.list, JSONDataSource.request, JSONDataSource.hasAttribute,
      JSONDataSource.schema, dataNetboxJSONDcimConsoleConnectionsList,
      dataNetboxJSONDcimConsoleServerPortsList, dataNetboxJSONDcimInterfaceTemplatesList,
      dataNetboxJSONDcimPowerPanelsList, dataNetboxJSONExtrasConfigContextsList,
      dataNetboxJSONWirelessWirelessLinksList, limitJSONSchema] at h <;>
    simp only [JSONDataSource.Read,
      dataNetboxJSONDcimConsoleConnectionsListRead,
      dataNetboxJSONDcimConsoleServerPortsListRead,
      dataNetboxJSONDcimInterfaceTemplatesListRead, dataNetboxJSONDcimPowerPanelsListRead,
      dataNetboxJSONExtrasConfigContextsListRead, dataNetboxJSONWirelessWirelessLinksListRead,
      h] <;>
    simp [JSONDataSource.endpoint, JSONDataSource.request,
      JSONDataSource.hasAttribute, JSONDataSource.schema,
      dataNetboxJSONDcimConsoleConnectionsList,
      dataNetboxJSONDcimConsoleServerPortsList, dataNetboxJSONDcimInterfaceTemplatesList,
      dataNetboxJSONDcimPowerPanelsList, dataNetboxJSONExtrasConfigContextsList,
      dataNetboxJSONWirelessWirelessLinksList, limitJSONSchema]

/-- C3: for a JSON list data source whose schema declares "limit" (an optional
integer of default 0) and every integer value n of that attribute, the one request
Read issues is the list call of the data source with `Limit` present and equal to
n, whatever the client answers; so a limit of 0 is sent as an explicit 0. -/
theorem json_list_read_limit (ds : JSONDataSource) (lib : Lib ρ J F T) (d : ResourceData)
    (client : NetBoxAPI ρ J F T) (n : Int)
    (hs : ds.hasAttribute "limit" = true) (hn : d.Get "limit" = .int n) :
    (ds.schema.lookup "limit").map (fun f => (f.type, f.optional, f.default))
      = some ("TypeInt", true, some (.int 0)) ∧
    (ds.Read lib d client).calls
      = [Call.List ds.endpoint (some { ID := none, Limit := some n })] := by
  cases ds <;>
    simp [JSONDataSource.hasAttribute, JSONDataSource.schema,
      dataNetboxJSONDcimConsoleConnectionsList,
      dataNetboxJSONDcimConsoleServerPortsList, dataNetboxJSONDcimInterfaceTemplatesList,
      dataNetboxJSONDcimPowerPanelsList, dataNetboxJSONExtrasConfigContextsList,
      dataNetboxJSONWirelessWirelessLinksList, limitJSONSchema] at hs ⊢ <;>
    simp only [JSONDataSource.Read, JSONDataSource.endpoint,
      dataNetboxJSONDcimConsoleConnectionsListRead,
      dataNetboxJSONDcimConsoleServerPortsListRead,
      dataNetboxJSONDcimInterfaceTemplatesListRead, dataNetboxJSONDcimPowerPanelsListRead,
      dataNetboxJSONWirelessWirelessLinksListRead, hn, Value.toInt] <;>
    split <;> rfl

/-- Witness for C1: the wireless links data source against a client that lists
"a" and "b". -/
theorem json_list_read_success_witness :
    JSONDataSource.WirelessWirelessLinks.list demoListClient
        (JSONDataSource.WirelessWirelessLinks.request (demoLimitData 0))
      = .ok ⟨⟨["a", "b"]⟩⟩ ∧
    (JSONDataSource.WirelessWirelessLinks.Read demoLib (demoLimitData 0) demoListClient).ret
      = .nil ∧
    (JSONDataSource.WirelessWirelessLinks.Read demoLib (demoLimitData 0) demoListClient).d.writes
      = [("json", .str "ab")] ∧
    (JSONDataSource.WirelessWirelessLinks.Read demoLib (demoLimitData 0) demoListClient).d.Get
      "json" = .str "ab" ∧
    (JSONDataSource.WirelessWirelessLinks.Read demoLib (demoLimitData 0)
      demoListClient).d.idWrites = ["NetboxJSONWirelessWirelessLinksList"] ∧
    (JSONDataSource.WirelessWirelessLinks.Read demoLib (demoLimitData 0) demoListClient).d.Id
      = "NetboxJSONWirelessWirelessLinksList" :=
  ⟨rfl, json_list_read_success .WirelessWirelessLinks demoLib (demoLimitData 0) demoListClient
    ⟨⟨["a", "b"]⟩⟩ rfl⟩

/-- Witness for C2: the config contexts data source against a client that answers
"503". -/
theorem json_list_read_error_witness :
    JSONDataSource.ExtrasConfigContexts.list demoDownClient
        (JSONDataSource.ExtrasConfigContexts.request (demoLimitData 0)) = .error "503" ∧
    (JSONDataSource.ExtrasConfigContexts.Read demoLib (demoLimitData 0) demoDownClient).ret
      = .err "503" ∧
    (JSONDataSource.ExtrasConfigContexts.Read demoLib (demoLimitData 0) demoDownClient).calls
      = [Call.List .ExtrasConfigContextsList none] ∧
    (JSONDataSource.ExtrasConfigContexts.Read demoLib (demoLimitData 0) demoDownClient).d
      = demoLimitData 0 ∧
    (JSONDataSource.ExtrasConfigContexts.Read demoLib (demoLimitData 0) demoDownClient).d.writes
      = [] ∧
    (JSONDataSource.ExtrasConfigContexts.Read demoLib (demoLimitData 0)
      demoDownClient).d.idWrites = [] :=
  ⟨rfl, json_list_read_error .ExtrasConfigContexts demoLib (demoLimitData 0) demoDownClient
    "503" rfl⟩

/-- Witness for C3: the console connections data source with limit 0. -/
theorem json_list_read_limit_witness :
    JSONDataSource.DcimConsoleConnections.hasAttribute "limit" = true ∧
    (demoLimitData 0).Get "limit" = .int 0 ∧
    (JSONDataSource.DcimConsoleConnections.schema.lookup "limit").map
        (fun f => (f.type, f.optional, f.default))
      = some ("TypeInt", true, some (.int 0)) ∧
    (JSONDataSource.DcimConsoleConnections.Read demoLib (demoLimitData 0) demoListClient).calls
      = [Call.List .DcimConsoleConnectionsList (some { ID := none, Limit := some 0 })] :=
  ⟨rfl, rfl, json_list_read_limit .DcimConsoleConnections demoLib (demoLimitData 0)
    demoListClient 0 rfl rfl⟩

end DataSourceTheorems

/-! ## The virtual machine resource: auxiliary facts -/

section VirtualMachineFacts
variable {ρ J F T : Type}

/-- Read issues exactly one request: the list call filtered by the resource ID. -/
theorem resourceNetboxVirtualizationVMRead_calls (lib : Lib ρ J F T) (d : ResourceData)
    (client : NetBoxAPI ρ J F T) :
    (resourceNetboxVirtualizationVMRead lib d client).calls
      = [Call.List .VirtualizationVirtualMachinesList (some { ID := some d.Id, Limit := none })] := by
  unfold resourceNetboxVirtualizationVMRead
  simp only []
  split
  · rfl
  · split <;> rfl

/-- The attribute writes of Read never touch the resource ID or the plan. -/
theorem resourceNetboxVirtualizationVMRead.setAll_frame (lib : Lib ρ J F T) (d : ResourceData)
    (resource : VirtualMachineWithConfigContext J F T) :
    (resourceNetboxVirtualizationVMRead.setAll lib d resource).2.idWrites = d.idWrites ∧
    (resourceNetboxVirtualizationVMRead.setAll lib d resource).2.id0 = d.id0 ∧
    (resourceNetboxVirtualizationVMRead.setAll lib d resource).2.plan = d.plan ∧
    (resourceNetboxVirtualizationVMRead.setAll lib d resource).2.state = d.state := by
  rcases resource with ⟨id, cluster, comments, url, customFields, disk, localContextData,
    memory, name, platform, role, status, tags, tenant, vcpus⟩
  cases localContextData with
  | none =>
    cases cluster <;> cases status <;> cases platform <;> cases role <;> cases tenant <;>
      cases vcpus <;> simp [resourceNetboxVirtualizationVMRead.setAll, ResourceData.Set]
  | some j =>
    rcases hm : lib.jsonMarshal j with ⟨b, _ | e⟩ <;>
      cases cluster <;> cases status <;> cases platform <;> cases role <;> cases tenant <;>
      cases vcpus <;> simp [resourceNetboxVirtualizationVMRead.setAll, ResourceData.Set, hm]

/-- The fields of the request body Create builds, when it builds one. -/
theorem resourceNetboxVirtualizationVMCreate.newResource_ok (lib : Lib ρ J F T)
    (d : ResourceData) (body : WritableVirtualMachineWithConfigContext J F T)
    (h : resourceNetboxVirtualizationVMCreate.newResource lib d = .ok body) :
    body.Cluster = some (d.Get "cluster_id").toInt ∧
    body.Comments = (d.Get "comments").toStr ∧
    body.CustomFields
      = some (lib.convertCustomFieldsFromTerraformToAPI [] (d.Get "custom_field").toList) ∧
    body.Name = some (d.Get "name").toStr ∧
    body.Status = (d.Get "status").toStr ∧
    body.Tags = lib.convertTagsToNestedTags (d.Get "tag").toList ∧
    body.Disk = (if (d.Get "disk").toInt = 0 then none else some (d.Get "disk").toInt) ∧
    body.Memory = (if (d.Get "memory").toInt = 0 then none else some (d.Get "memory").toInt) ∧
    body.Platform
      = (if (d.Get "platform_id").toInt = 0 then none else some (d.Get "platform_id").toInt) ∧
    body.Role = (if (d.Get "role_id").toInt = 0 then none else some (d.Get "role_id").toInt) ∧
    body.Tenant
      = (if (d.Get "tenant_id").toInt = 0 then none else some (d.Get "tenant_id").toInt) ∧
    body.Vcpus
      = (if (if !containsDot (d.Get "vcpus").toStr then (d.Get "vcpus").toStr ++ ".00"
              else (d.Get "vcpus").toStr) = "" then none
         else some (lib.ParseFloat
            (if !containsDot (d.Get "vcpus").toStr then (d.Get "vcpus").toStr ++ ".00"
              else (d.Get "vcpus").toStr))) ∧
    (if (d.Get "local_context_data").toStr = "" then body.LocalContextData = none
     else ∃ m, lib.jsonUnmarshal (d.Get "local_context_data").toStr = .ok m ∧
        body.LocalContextData = some m) := by
  unfold resourceNetboxVirtualizationVMCreate.newResource at h
  simp only [] at h
  split at h
  · cases h
  · rename_i nr hnr
    injection h with h
    subst h
    split at hnr
    · rename_i hne
      split at hnr
      · cases hnr
      · rename_i m hm
        injection hnr with hnr
        subst hnr
        have hne2 : ¬ (d.Get "local_context_data").toStr = "" := by simpa using hne
        refine ⟨?_, ?_, ?_, ?_, ?_, ?_, ?_, ?_, ?_, ?_, ?_, ?_, ?_⟩ <;>
          simp [apply_ite WritableVirtualMachineWithConfigContext.Cluster,
            apply_ite WritableVirtualMachineWithConfigContext.Comments,
            apply_ite WritableVirtualMachineWithConfigContext.CustomFields,
            apply_ite WritableVirtualMachineWithConfigContext.Name,
            apply_ite WritableVirtualMachineWithConfigContext.Status,
            apply_ite WritableVirtualMachineWithConfigContext.Tags,
            apply_ite WritableVirtualMachineWithConfigContext.Disk,
            apply_ite WritableVirtualMachineWithConfigContext.Memory,
            apply_ite WritableVirtualMachineWithConfigContext.Platform,
            apply_ite WritableVirtualMachineWithConfigContext.Role,
            apply_ite WritableVirtualMachineWithConfigContext.Tenant,
            apply_ite WritableVirtualMachineWithConfigContext.Vcpus,
            apply_ite WritableVirtualMachineWithConfigContext.LocalContextData, hne2, hm]
    · rename_i hne
      injection hnr with hnr
      subst hnr
      have hne2 : (d.Get "local_context_data").toStr = "" := by simpa using hne
      refine ⟨?_, ?_, ?_, ?_, ?_, ?_, ?_, ?_, ?_, ?_, ?_, ?_, ?_⟩ <;>
          simp [apply_ite WritableVirtualMachineWithConfigContext.Cluster,
            apply_ite WritableVirtualMachineWithConfigContext.Comments,
            apply_ite WritableVirtualMachineWithConfigContext.CustomFields,
            apply_ite WritableVirtualMachineWithConfigContext.Name,
            apply_ite WritableVirtualMachineWithConfigContext.Status,
            apply_ite WritableVirtualMachineWithConfigContext.Tags,
            apply_ite WritableVirtualMachineWithConfigContext.Disk,
            apply_ite WritableVirtualMachineWithConfigContext.Memory,
            apply_ite WritableVirtualMachineWithConfigContext.Platform,
            apply_ite WritableVirtualMachineWithConfigContext.Role,
            apply_ite WritableVirtualMachineWithConfigContext.Tenant,
            apply_ite WritableVirtualMachineWithConfigContext.Vcpus,
            apply_ite WritableVirtualMachineWithConfigContext.LocalContextData, hne2]

/-- Read when the list call fails. -/
theorem resourceNetboxVirtualizationVMRead_error (lib : Lib ρ J F T) (d : ResourceData)
    (client : NetBoxAPI ρ J F T) (e : GoError)
    (h : client.Virtualization.VirtualizationVirtualMachinesList
      (some { ID := some d.Id, Limit := none }) = .error e) :
    resourceNetboxVirtualizationVMRead lib d client
      = ⟨.err e, d,
          [Call.List .VirtualizationVirtualMachinesList (some { ID := some d.Id, Limit := none })]⟩ := by
  unfold resourceNetboxVirtualizationVMRead
  simp only [h]

/-- Read when the list call succeeds and no listed result has the resource ID. -/
theorem resourceNetboxVirtualizationVMRead_absent (lib : Lib ρ J F T) (d : ResourceData)
    (client : NetBoxAPI ρ J F T)
    (resources : ListOK (List (VirtualMachineWithConfigContext J F T)))
    (h : client.Virtualization.VirtualizationVirtualMachinesList
      (some { ID := some d.Id, Limit := none }) = .ok resources)
    (hno : ∀ r ∈ resources.Payload.Results, FormatInt r.ID ≠ d.Id) :
    resourceNetboxVirtualizationVMRead lib d client
      = ⟨.nil, d.SetId "",
          [Call.List .VirtualizationVirtualMachinesList (some { ID := some d.Id, Limit := none })]⟩ := by
  have hf : resources.Payload.Results.find? (fun resource => FormatInt resource.ID == d.Id)
      = none := by
    rw [List.find?_eq_none]
    intro r hr
    simpa using hno r hr
  unfold resourceNetboxVirtualizationVMRead
  simp only [h, hf]

/-- Read when the list call succeeds and `resource` is the first listed result with
the resource ID. -/
theorem resourceNetboxVirtualizationVMRead_present (lib : Lib ρ J F T) (d : ResourceData)
    (client : NetBoxAPI ρ J F T)
    (resources : ListOK (List (VirtualMachineWithConfigContext J F T)))
    (resource : VirtualMachineWithConfigContext J F T)
    (h : client.Virtualization.VirtualizationVirtualMachinesList
      (some { ID := some d.Id, Limit := none }) = .ok resources)
    (hf : resources.Payload.Results.find? (fun x => FormatInt x.ID == d.Id) = some resource) :
    resourceNetboxVirtualizationVMRead lib d client
      = ⟨(resourceNetboxVirtualizationVMRead.setAll lib d resource).1,
          (resourceNetboxVirtualizationVMRead.setAll lib d resource).2,
          [Call.List .VirtualizationVirtualMachinesList (some { ID := some d.Id, Limit := none })]⟩ := by
  unfold resourceNetboxVirtualizationVMRead
  simp only [h, hf]

/-- The body of Read when the result carries no cluster: the dereference at line
230 panics before any write. -/
theorem resourceNetboxVirtualizationVMRead.setAll_nil_cluster (lib : Lib ρ J F T)
    (d : ResourceData) (resource : VirtualMachineWithConfigContext J F T)
    (hc : resource.Cluster = none) :
    resourceNetboxVirtualizationVMRead.setAll lib d resource = (.panic, d) := by
  unfold resourceNetboxVirtualizationVMRead.setAll
  simp only [hc]

/-- The body of Read when the local context data of the result fails to encode:
the error is returned after five attribute writes. -/
theorem resourceNetboxVirtualizationVMRead.setAll_encode_error (lib : Lib ρ J F T)
    (d : ResourceData) (resource : VirtualMachineWithConfigContext J F T) (cluster : Nested)
    (j : J) (e : GoError) (hc : resource.Cluster = some cluster)
    (hj : resource.LocalContextData = some j) (he : (lib.jsonMarshal j).2 = some e) :
    (resourceNetboxVirtualizationVMRead.setAll lib d resource).1 = .err e ∧
    (resourceNetboxVirtualizationVMRead.setAll lib d resource).2.writes
      = d.writes ++
        [("cluster_id", .int cluster.ID),
         ("comments", if resource.Comments = "" then .null else .str resource.Comments),
         ("content_type", .str (lib.convertURIContentType resource.URL)),
         ("custom_field", .set (lib.updateCustomFieldsFromAPI (d.Get "custom_field").toList
            resource.CustomFields)),
         ("disk", .ofInt64Ptr resource.Disk)] := by
  have hg : ∀ v1 v2 v3, (((d.Set "cluster_id" v1).Set "comments" v2).Set "content_type" v3).Get
      "custom_field" = d.Get "custom_field" := by
    intro v1 v2 v3
    rw [ResourceData.Get_Set_other _ _ _ _ (by decide),
      ResourceData.Get_Set_other _ _ _ _ (by decide),
      ResourceData.Get_Set_other _ _ _ _ (by decide)]
  unfold resourceNetboxVirtualizationVMRead.setAll
  simp only [hc, hj, hg]
  rcases hm : lib.jsonMarshal j with ⟨b, err⟩
  rw [hm] at he
  simp only at he
  subst he
  simp [ResourceData.Set]

/-- The body of Read when the result carries its cluster and its status and its
local context data is nil or encodes: thirteen attribute writes, then the
dereference of `Vcpus`. -/
theorem resourceNetboxVirtualizationVMRead.setAll_encoded (lib : Lib ρ J F T)
    (d : ResourceData) (resource : VirtualMachineWithConfigContext J F T)
    (cluster : Nested) (status : VirtualMachineStatus)
    (hc : resource.Cluster = some cluster) (hs : resource.Status = some status)
    (hm : ∀ j, resource.LocalContextData = some j → (lib.jsonMarshal j).2 = none) :
    (resourceNetboxVirtualizationVMRead.setAll lib d resource).1
      = (match resource.Vcpus with
         | some _ => Ret.nil
         | none => Ret.panic) ∧
    (resourceNetboxVirtualizationVMRead.setAll lib d resource).2.writes
      = d.writes ++
        [("cluster_id", .int cluster.ID),
         ("comments", if resource.Comments = "" then .null else .str resource.Comments),
         ("content_type", .str (lib.convertURIContentType resource.URL)),
         ("custom_field", .set (lib.updateCustomFieldsFromAPI (d.Get "custom_field").toList
            resource.CustomFields)),
         ("disk", .ofInt64Ptr resource.Disk),
         ("local_context_data",
            match resource.LocalContextData with
            | some j => .str (lib.jsonMarshal j).1
            | none => .str ""),
         ("memory", .ofInt64Ptr resource.Memory),
         ("name", .ofStringPtr resource.Name),
         ("platform_id",
            match resource.Platform with
            | some platform => .int platform.ID
            | none => .int 0),
         ("role_id",
            match resource.Role with
            | some role => .int role.ID
            | none => .int 0),
         ("status", .ofStringPtr status.Value),
         ("tag", .set (lib.convertNestedTagsToTags resource.Tags)),
         ("tenant_id",
            match resource.Tenant with
            | some tenant => .int tenant.ID
            | none => .int 0)] ++
        (match resource.Vcpus with
         | some vcpus => [("vcpus", .str (lib.SprintfV vcpus))]
         | none => []) := by
  have hg : ∀ v1 v2 v3, (((d.Set "cluster_id" v1).Set "comments" v2).Set "content_type" v3).Get
      "custom_field" = d.Get "custom_field" := by
    intro v1 v2 v3
    rw [ResourceData.Get_Set_other _ _ _ _ (by decide),
      ResourceData.Get_Set_other _ _ _ _ (by decide),
      ResourceData.Get_Set_other _ _ _ _ (by decide)]
  unfold resourceNetboxVirtualizationVMRead.setAll
  simp only [hc, hs, hg]
  cases hl : resource.LocalContextData with
  | none =>
    cases resource.Platform <;> cases resource.Role <;> cases resource.Tenant <;>
      cases resource.Vcpus <;> simp [ResourceData.Set]
  | some j =>
    have h2 := hm j hl
    rcases hmj : lib.jsonMarshal j with ⟨b, err⟩
    rw [hmj] at h2
    simp only at h2
    subst h2
    cases resource.Platform <;> cases resource.Role <;> cases resource.Tenant <;>
      cases resource.Vcpus <;> simp [ResourceData.Set, hmj]

/-- The body of Read when the result carries its cluster but no status and its
local context data is nil or encodes: the dereference at line 301 panics after
the write of role_id, so status, tag and tenant_id are not written. -/
theorem resourceNetboxVirtualizationVMRead.setAll_nil_status (lib : Lib ρ J F T)
    (d : ResourceData) (resource : VirtualMachineWithConfigContext J F T)
    (cluster : Nested)
    (hc : resource.Cluster = some cluster) (hs : resource.Status = none)
    (hm : ∀ j, resource.LocalContextData = some j → (lib.jsonMarshal j).2 = none) :
    (resourceNetboxVirtualizationVMRead.setAll lib d resource).1 = .panic ∧
    (resourceNetboxVirtualizationVMRead.setAll lib d resource).2.writes.map Prod.fst
      = d.writes.map Prod.fst ++
        ["cluster_id", "comments", "content_type", "custom_field", "disk",
         "local_context_data", "memory", "name", "platform_id", "role_id"] := by
  unfold resourceNetboxVirtualizationVMRead.setAll
  simp only [hc, hs]
  cases hl : resource.LocalContextData with
  | none =>
    cases resource.Platform <;> cases resource.Role <;> simp [ResourceData.Set]
  | some j =>
    have h2 := hm j hl
    rcases hmj : lib.jsonMarshal j with ⟨b, err⟩
    rw [hmj] at h2
    simp only at h2
    subst h2
    cases resource.Platform <;> cases resource.Role <;> simp [ResourceData.Set, hmj]

set_option maxHeartbeats 1000000 in
/-- The fields of the request body Update builds, when it builds one. -/
theorem resourceNetboxVirtualizationVMUpdate.params_ok (lib : Lib ρ J F T)
    (d : ResourceData) (body : WritableVirtualMachineWithConfigContext J F T)
    (h : resourceNetboxVirtualizationVMUpdate.params lib d = .ok body) :
    body.Name = some (d.Get "name").toStr ∧
    body.Cluster = some (d.Get "cluster_id").toInt ∧
    body.Tags = lib.convertTagsToNestedTags (d.Get "tag").toList ∧
    body.Comments
      = (if d.HasChange "comments" then
          (if (d.GetOk "comments").2 then (d.Get "comments").toStr else " ")
         else "") ∧
    body.CustomFields
      = (if d.HasChange "custom_field" then
          some (lib.convertCustomFieldsFromTerraformToAPI (d.state "custom_field").toList
            (d.plan "custom_field").toList)
         else none) ∧
    body.Disk = (if d.HasChange "disk" then some (d.Get "disk").toInt else none) ∧
    body.Memory = (if d.HasChange "memory" then some (d.Get "memory").toInt else none) ∧
    body.Platform
      = (if d.HasChange "platform_id" then some (d.Get "platform_id").toInt else none) ∧
    body.Role = (if d.HasChange "role_id" then some (d.Get "role_id").toInt else none) ∧
    body.Status = (if d.HasChange "status" then (d.Get "status").toStr else "") ∧
    body.Tenant = (if d.HasChange "tenant_id" then some (d.Get "tenant_id").toInt else none) ∧
    body.Vcpus
      = (if d.HasChange "vcpus" then
          some (lib.ParseFloat
            (if !containsDot (d.Get "vcpus").toStr then (d.Get "vcpus").toStr ++ ".00"
              else (d.Get "vcpus").toStr))
         else none) ∧
    (if d.HasChange "local_context_data" then
      (if (d.Get "local_context_data").toStr = "" then body.LocalContextData = some none
       else ∃ m, lib.jsonUnmarshal (d.Get "local_context_data").toStr = .ok m ∧
          body.LocalContextData = some m)
     else body.LocalContextData = none) := by
  unfold resourceNetboxVirtualizationVMUpdate.params at h
  simp only [] at h
  split at h
  · cases h
  · rename_i nr hnr
    injection h with h
    subst h
    split at hnr
    · rename_i hch
      split at hnr
      · rename_i hempty
        injection hnr with hnr
        subst hnr
        have hempty2 : (d.Get "local_context_data").toStr = "" := by simpa using hempty
        simp [apply_ite WritableVirtualMachineWithConfigContext.Cluster,
            apply_ite WritableVirtualMachineWithConfigContext.Comments,
            apply_ite WritableVirtualMachineWithConfigContext.CustomFields,
            apply_ite WritableVirtualMachineWithConfigContext.Name,
            apply_ite WritableVirtualMachineWithConfigContext.Status,
            apply_ite WritableVirtualMachineWithConfigContext.Tags,
            apply_ite WritableVirtualMachineWithConfigContext.Disk,
            apply_ite WritableVirtualMachineWithConfigContext.Memory,
            apply_ite WritableVirtualMachineWithConfigContext.Platform,
            apply_ite WritableVirtualMachineWithConfigContext.Role,
            apply_ite WritableVirtualMachineWithConfigContext.Tenant,
            apply_ite WritableVirtualMachineWithConfigContext.Vcpus,
            apply_ite WritableVirtualMachineWithConfigContext.LocalContextData,
            ResourceData.GetOk, ResourceData.GetChange, hch, hempty2]
      · rename_i hempty
        split at hnr
        · cases hnr
        · rename_i m hm
          injection hnr with hnr
          subst hnr
          have hempty2 : ¬ (d.Get "local_context_data").toStr = "" := by simpa using hempty
          simp [apply_ite WritableVirtualMachineWithConfigContext.Cluster,
              apply_ite WritableVirtualMachineWithConfigContext.Comments,
              apply_ite WritableVirtualMachineWithConfigContext.CustomFields,
              apply_ite WritableVirtualMachineWithConfigContext.Name,
              apply_ite WritableVirtualMachineWithConfigContext.Status,
              apply_ite WritableVirtualMachineWithConfigContext.Tags,
              apply_ite WritableVirtualMachineWithConfigContext.Disk,
              apply_ite WritableVirtualMachineWithConfigContext.Memory,
              apply_ite WritableVirtualMachineWithConfigContext.Platform,
              apply_ite WritableVirtualMachineWithConfigContext.Role,
              apply_ite WritableVirtualMachineWithConfigContext.Tenant,
              apply_ite WritableVirtualMachineWithConfigContext.Vcpus,
              apply_ite WritableVirtualMachineWithConfigContext.LocalContextData,
              ResourceData.GetOk, ResourceData.GetChange, hch, hempty2, hm]
    · rename_i hch
      injection hnr with hnr
      subst hnr
      simp [apply_ite WritableVirtualMachineWithConfigContext.Cluster,
          apply_ite WritableVirtualMachineWithConfigContext.Comments,
          apply_ite WritableVirtualMachineWithConfigContext.CustomFields,
          apply_ite WritableVirtualMachineWithConfigContext.Name,
          apply_ite WritableVirtualMachineWithConfigContext.Status,
          apply_ite WritableVirtualMachineWithConfigContext.Tags,
          apply_ite WritableVirtualMachineWithConfigContext.Disk,
          apply_ite WritableVirtualMachineWithConfigContext.Memory,
          apply_ite WritableVirtualMachineWithConfigContext.Platform,
          apply_ite WritableVirtualMachineWithConfigContext.Role,
          apply_ite WritableVirtualMachineWithConfigContext.Tenant,
          apply_ite WritableVirtualMachineWithConfigContext.Vcpus,
          apply_ite WritableVirtualMachineWithConfigContext.LocalContextData,
          ResourceData.GetOk, ResourceData.GetChange, hch]

/-- The loop of Exists computes whether some listed result has the resource ID. -/
theorem resourceNetboxVirtualizationVMExists.loop_eq {α : Type} (p : α → Bool) (l : List α)
    (acc : Bool) :
    l.foldl (fun resourceExist resource => if p resource then true else resourceExist) acc
      = (acc || l.any p) := by
  induction l generalizing acc with
  | nil => simp
  | cons x xs ih =>
    simp only [List.foldl_cons, List.any_cons, ih]
    cases p x <;> cases acc <;> simp

/-- Exists in closed form. -/
theorem resourceNetboxVirtualizationVMExists_eq (d : ResourceData) (client : NetBoxAPI ρ J F T) :
    resourceNetboxVirtualizationVMExists d client
      = (match client.Virtualization.VirtualizationVirtualMachinesList
            (some { ID := some d.Id, Limit := none }) with
         | .error err =>
           (false, some err,
            [Call.List .VirtualizationVirtualMachinesList
              (some { ID := some d.Id, Limit := none })])
         | .ok resources =>
           (resources.Payload.Results.any (fun resource => FormatInt resource.ID == d.Id), none,
            [Call.List .VirtualizationVirtualMachinesList
              (some { ID := some d.Id, Limit := none })])) := by
  unfold resourceNetboxVirtualizationVMExists
  simp only []
  cases hl : client.Virtualization.VirtualizationVirtualMachinesList
      (some { ID := some d.Id, Limit := none }) with
  | error e => rfl
  | ok resources =>
    have hloop := resourceNetboxVirtualizationVMExists.loop_eq
      (fun resource : VirtualMachineWithConfigContext J F T => FormatInt resource.ID == d.Id)
      resources.Payload.Results false
    simp only [Bool.false_or] at hloop
    simp only [hloop]

end VirtualMachineFacts

/-! ## The virtual machine resource: Create, Read, Update, Delete -/

section VirtualMachineTheorems
variable {ρ J F T : Type}

/-- C4: whenever Create builds a request body, that body is the first request it
issues, it carries Cluster, Name, Status, Comments, CustomFields and Tags taken
from the configuration, and each of Disk, Memory, Platform, Role and Tenant is
present exactly when the configured integer is not zero and then equals it. -/
theorem vm_create_request_body (lib : Lib ρ J F T) (d : ResourceData)
    (client : NetBoxAPI ρ J F T) (body : WritableVirtualMachineWithConfigContext J F T)
    (h : resourceNetboxVirtualizationVMCreate.newResource lib d = .ok body) :
    (resourceNetboxVirtualizationVMCreate lib d client).calls.head?
      = some (Call.VirtualizationVirtualMachinesCreate body) ∧
    body.Cluster = some (d.Get "cluster_id").toInt ∧
    body.Name = some (d.Get "name").toStr ∧
    body.Status = (d.Get "status").toStr ∧
    body.Comments = (d.Get "comments").toStr ∧
    body.CustomFields
      = some (lib.convertCustomFieldsFromTerraformToAPI [] (d.Get "custom_field").toList) ∧
    body.Tags = lib.convertTagsToNestedTags (d.Get "tag").toList ∧
    ((body.Disk ≠ none ↔ (d.Get "disk").toInt ≠ 0) ∧
      ((d.Get "disk").toInt ≠ 0 → body.Disk = some (d.Get "disk").toInt)) ∧
    ((body.Memory ≠ none ↔ (d.Get "memory").toInt ≠ 0) ∧
      ((d.Get "memory").toInt ≠ 0 → body.Memory = some (d.Get "memory").toInt)) ∧
    ((body.Platform ≠ none ↔ (d.Get "platform_id").toInt ≠ 0) ∧
      ((d.Get "platform_id").toInt ≠ 0 → body.Platform = some (d.Get "platform_id").toInt)) ∧
    ((body.Role ≠ none ↔ (d.Get "role_id").toInt ≠ 0) ∧
      ((d.Get "role_id").toInt ≠ 0 → body.Role = some (d.Get "role_id").toInt)) ∧
    ((body.Tenant ≠ none ↔ (d.Get "tenant_id").toInt ≠ 0) ∧
      ((d.Get "tenant_id").toInt ≠ 0 → body.Tenant = some (d.Get "tenant_id").toInt)) := by
  obtain ⟨h1, h2, h3, h4, h5, h6, h7, h8, h9, h10, h11, -, -⟩ :=
    resourceNetboxVirtualizationVMCreate.newResource_ok lib d body h
  refine ⟨?_, h1, h4, h5, h2, h3, h6, ?_, ?_, ?_, ?_, ?_⟩
  · unfold resourceNetboxVirtualizationVMCreate
    simp only [h]
    split <;> rfl
  · rw [h7]; constructor <;> split <;> simp_all
  · rw [h8]; constructor <;> split <;> simp_all
  · rw [h9]; constructor <;> split <;> simp_all
  · rw [h10]; constructor <;> split <;> simp_all
  · rw [h11]; constructor <;> split <;> simp_all

/-- C5 (amended): when the create call fails with e, Create returns e, the create
call is its only request and the resource data is untouched.  When it succeeds,
Create sets the resource ID to the base-10 rendering of the created ID and runs
Read on that state, with the list call as the only further request; on return
the resource ID is that rendering, unless the list call succeeded with no result
of that ID, in which case Read has reset it to the empty string (and returned no
error). -/
theorem vm_create_outcome (lib : Lib ρ J F T) (d : ResourceData)
    (client : NetBoxAPI ρ J F T) (body : WritableVirtualMachineWithConfigContext J F T)
    (h : resourceNetboxVirtualizationVMCreate.newResource lib d = .ok body) :
    (∀ e, client.Virtualization.VirtualizationVirtualMachinesCreate body = .error e →
      (resourceNetboxVirtualizationVMCreate lib d client).ret = .err e ∧
      (resourceNetboxVirtualizationVMCreate lib d client).calls
        = [Call.VirtualizationVirtualMachinesCreate body] ∧
      (resourceNetboxVirtualizationVMCreate lib d client).d = d ∧
      (resourceNetboxVirtualizationVMCreate lib d client).d.idWrites = d.idWrites) ∧
    (∀ created, client.Virtualization.VirtualizationVirtualMachinesCreate body = .ok created →
      (resourceNetboxVirtualizationVMCreate lib d client).ret
        = (resourceNetboxVirtualizationVMRead lib
            (d.SetId (FormatInt created.Payload.ID)) client).ret ∧
      (resourceNetboxVirtualizationVMCreate lib d client).d
        = (resourceNetboxVirtualizationVMRead lib
            (d.SetId (FormatInt created.Payload.ID)) client).d ∧
      (resourceNetboxVirtualizationVMCreate lib d client).calls
        = [Call.VirtualizationVirtualMachinesCreate body,
           Call.List .VirtualizationVirtualMachinesList
             (some { ID := some (FormatInt created.Payload.ID), Limit := none })] ∧
      (∃ rest, (resourceNetboxVirtualizationVMCreate lib d client).d.idWrites
        = d.idWrites ++ FormatInt created.Payload.ID :: rest) ∧
      ((∃ resources, client.Virtualization.VirtualizationVirtualMachinesList
            (some { ID := some (FormatInt created.Payload.ID), Limit := none }) = .ok resources ∧
          ∀ r ∈ resources.Payload.Results, FormatInt r.ID ≠ FormatInt created.Payload.ID) →
        (resourceNetboxVirtualizationVMCreate lib d client).d.Id = "" ∧
        (resourceNetboxVirtualizationVMCreate lib d client).ret = .nil) ∧
      (¬ (∃ resources, client.Virtualization.VirtualizationVirtualMachinesList
            (some { ID := some (FormatInt created.Payload.ID), Limit := none }) = .ok resources ∧
          ∀ r ∈ resources.Payload.Results, FormatInt r.ID ≠ FormatInt created.Payload.ID) →
        (resourceNetboxVirtualizationVMCreate lib d client).d.Id
          = FormatInt created.Payload.ID)) := by
  constructor
  · intro e he
    unfold resourceNetboxVirtualizationVMCreate
    simp only [h, he, and_self]
  · intro created hc
    have hid : (d.SetId (FormatInt created.Payload.ID)).Id = FormatInt created.Payload.ID :=
      ResourceData.Id_SetId d _
    have hrun : resourceNetboxVirtualizationVMCreate lib d client
        = ⟨(resourceNetboxVirtualizationVMRead lib
              (d.SetId (FormatInt created.Payload.ID)) client).ret,
            (resourceNetboxVirtualizationVMRead lib
              (d.SetId (FormatInt created.Payload.ID)) client).d,
            [Call.VirtualizationVirtualMachinesCreate body] ++
              (resourceNetboxVirtualizationVMRead lib
                (d.SetId (FormatInt created.Payload.ID)) client).calls⟩ := by
      unfold resourceNetboxVirtualizationVMCreate
      simp only [h, hc]
    rw [hrun]
    refine ⟨rfl, rfl, ?_, ?_, ?_, ?_⟩
    · simp only [resourceNetboxVirtualizationVMRead_calls, hid]
      rfl
    · cases hl : client.Virtualization.VirtualizationVirtualMachinesList
          (some { ID := some (FormatInt created.Payload.ID), Limit := none }) with
      | error e =>
        rw [resourceNetboxVirtualizationVMRead_error lib _ client e (by rw [hid]; exact hl)]
        exact ⟨[], rfl⟩
      | ok resources =>
        cases hf : resources.Payload.Results.find?
            (fun x => FormatInt x.ID == FormatInt created.Payload.ID) with
        | none =>
          rw [resourceNetboxVirtualizationVMRead_absent lib _ client resources
            (by rw [hid]; exact hl)
            (by
              rw [hid]
              intro r hr
              have := List.find?_eq_none.mp hf r hr
              simpa using this)]
          exact ⟨[""], by simp [ResourceData.SetId]⟩
        | some resource =>
          rw [resourceNetboxVirtualizationVMRead_present lib _ client resources resource
            (by rw [hid]; exact hl) (by rw [hid]; exact hf)]
          refine ⟨[], ?_⟩
          simp [(resourceNetboxVirtualizationVMRead.setAll_frame lib _ resource).1,
            ResourceData.SetId]
    · rintro ⟨resources, hl, hno⟩
      rw [resourceNetboxVirtualizationVMRead_absent lib _ client resources
        (by rw [hid]; exact hl) (by rw [hid]; exact hno)]
      exact ⟨ResourceData.Id_SetId _ _, rfl⟩
    · intro hno
      cases hl : client.Virtualization.VirtualizationVirtualMachinesList
          (some { ID := some (FormatInt created.Payload.ID), Limit := none }) with
      | error e =>
        rw [resourceNetboxVirtualizationVMRead_error lib _ client e (by rw [hid]; exact hl)]
        exact hid
      | ok resources =>
        cases hf : resources.Payload.Results.find?
            (fun x => FormatInt x.ID == FormatInt created.Payload.ID) with
        | none =>
          exfalso
          apply hno
          refine ⟨resources, hl, ?_⟩
          intro r hr
          have := List.find?_eq_none.mp hf r hr
          simpa using this
        | some resource =>
          rw [resourceNetboxVirtualizationVMRead_present lib _ client resources resource
            (by rw [hid]; exact hl) (by rw [hid]; exact hf)]
          have hfr := resourceNetboxVirtualizationVMRead.setAll_frame lib
            (d.SetId (FormatInt created.Payload.ID)) resource
          simp only [ResourceData.Id, hfr.1, hfr.2.1]
          exact hid

/-- C6 (amended): let the list call succeed and `resource` be the first listed
virtual machine whose ID, rendered in base 10, is the resource ID, and let it
carry both its cluster and its status.  Read then writes, in this order,
cluster_id, comments (nil for ""), content_type, custom_field, disk,
local_context_data (the encoding, or "" for nil), memory, name, platform_id,
role_id, status, tag and tenant_id (the nested ID, or 0 when absent), followed
by at most a write of vcpus, and the attributes then read back as written.  The
one exception is the guard of lines 261 to 264: if `json.Marshal` returns an
error e for a non-nil local context data, Read returns e after writing
cluster_id, comments, content_type, custom_field and disk only. -/
theorem vm_read_sets (lib : Lib ρ J F T) (d : ResourceData) (client : NetBoxAPI ρ J F T)
    (resources : ListOK (List (VirtualMachineWithConfigContext J F T)))
    (resource : VirtualMachineWithConfigContext J F T)
    (cluster : Nested) (status : VirtualMachineStatus)
    (hl : client.Virtualization.VirtualizationVirtualMachinesList
      (some { ID := some d.Id, Limit := none }) = .ok resources)
    (hf : resources.Payload.Results.find? (fun x => FormatInt x.ID == d.Id) = some resource)
    (hc : resource.Cluster = some cluster) (hs : resource.Status = some status) :
    (∀ j e, resource.LocalContextData = some j → (lib.jsonMarshal j).2 = some e →
      (resourceNetboxVirtualizationVMRead lib d client).ret = .err e ∧
      (resourceNetboxVirtualizationVMRead lib d client).d.writes
        = d.writes ++
          [("cluster_id", .int cluster.ID),
           ("comments", if resource.Comments = "" then .null else .str resource.Comments),
           ("content_type", .str (lib.convertURIContentType resource.URL)),
           ("custom_field", .set (lib.updateCustomFieldsFromAPI (d.Get "custom_field").toList
              resource.CustomFields)),
           ("disk", .ofInt64Ptr resource.Disk)]) ∧
    ((∀ j, resource.LocalContextData = some j → (lib.jsonMarshal j).2 = none) →
      (∃ rest, (∀ w ∈ rest, w.1 = "vcpus") ∧
        (resourceNetboxVirtualizationVMRead lib d client).d.writes
          = d.writes ++
            [("cluster_id", .int cluster.ID),
             ("comments", if resource.Comments = "" then .null else .str resource.Comments),
             ("content_type", .str (lib.convertURIContentType resource.URL)),
             ("custom_field", .set (lib.updateCustomFieldsFromAPI
                (d.Get "custom_field").toList resource.CustomFields)),
             ("disk", .ofInt64Ptr resource.Disk),
             ("local_context_data",
                match resource.LocalContextData with
                | some j => .str (lib.jsonMarshal j).1
                | none => .str ""),
             ("memory", .ofInt64Ptr resource.Memory),
             ("name", .ofStringPtr resource.Name),
             ("platform_id",
                match resource.Platform with
                | some platform => .int platform.ID
                | none => .int 0),
             ("role_id",
                match resource.Role with
                | some role => .int role.ID
                | none => .int 0),
             ("status", .ofStringPtr status.Value),
             ("tag", .set (lib.convertNestedTagsToTags resource.Tags)),
             ("tenant_id",
                match resource.Tenant with
                | some tenant => .int tenant.ID
                | none => .int 0)] ++ rest) ∧
      (resourceNetboxVirtualizationVMRead lib d client).d.Get "platform_id"
        = (match resource.Platform with
           | some platform => .int platform.ID
           | none => .int 0) ∧
      (resourceNetboxVirtualizationVMRead lib d client).d.Get "role_id"
        = (match resource.Role with
           | some role => .int role.ID
           | none => .int 0) ∧
      (resourceNetboxVirtualizationVMRead lib d client).d.Get "tenant_id"
        = (match resource.Tenant with
           | some tenant => .int tenant.ID
           | none => .int 0) ∧
      (resourceNetboxVirtualizationVMRead lib d client).d.Get "comments"
        = (if resource.Comments = "" then .null else .str resource.Comments) ∧
      (resourceNetboxVirtualizationVMRead lib d client).d.Get "local_context_data"
        = (match resource.LocalContextData with
           | some j => .str (lib.jsonMarshal j).1
           | none => .str "") ∧
      (resourceNetboxVirtualizationVMRead lib d client).d.Get "cluster_id"
        = .int cluster.ID ∧
      (resourceNetboxVirtualizationVMRead lib d client).d.Get "name"
        = .ofStringPtr resource.Name ∧
      (resourceNetboxVirtualizationVMRead lib d client).d.Get "disk"
        = .ofInt64Ptr resource.Disk ∧
      (resourceNetboxVirtualizationVMRead lib d client).d.Get "memory"
        = .ofInt64Ptr resource.Memory ∧
      (resourceNetboxVirtualizationVMRead lib d client).d.Get "status"
        = .ofStringPtr status.Value) := by
  rw [resourceNetboxVirtualizationVMRead_present lib d client resources resource hl hf]
  constructor
  · intro j e hj he
    exact resourceNetboxVirtualizationVMRead.setAll_encode_error lib d resource cluster j e
      hc hj he
  · intro hm
    have hw := (resourceNetboxVirtualizationVMRead.setAll_encoded lib d resource cluster status
      hc hs hm).2
    refine ⟨⟨_, ?_, hw⟩, ?_⟩
    · cases resource.Vcpus <;> simp
    · simp only [ResourceData.Get, hw]
      cases resource.Vcpus <;> simp

/-- C7: when the list call succeeds and no listed result has an ID whose base-10
rendering is the resource ID (the empty list included), Read returns no error,
its only write is `d.SetId("")`, so the resource ID is the empty string, and no
attribute is written; the list call is its only request. -/
theorem vm_read_absent (lib : Lib ρ J F T) (d : ResourceData) (client : NetBoxAPI ρ J F T)
    (resources : ListOK (List (VirtualMachineWithConfigContext J F T)))
    (hl : client.Virtualization.VirtualizationVirtualMachinesList
      (some { ID := some d.Id, Limit := none }) = .ok resources)
    (hno : ∀ r ∈ resources.Payload.Results, FormatInt r.ID ≠ d.Id) :
    (resourceNetboxVirtualizationVMRead lib d client).ret = .nil ∧
    (resourceNetboxVirtualizationVMRead lib d client).d.Id = "" ∧
    (resourceNetboxVirtualizationVMRead lib d client).d.idWrites = d.idWrites ++ [""] ∧
    (resourceNetboxVirtualizationVMRead lib d client).d.writes = d.writes ∧
    (∀ key, (resourceNetboxVirtualizationVMRead lib d client).d.Get key = d.Get key) ∧
    (resourceNetboxVirtualizationVMRead lib d client).calls
      = [Call.List .VirtualizationVirtualMachinesList
          (some { ID := some d.Id, Limit := none })] := by
  rw [resourceNetboxVirtualizationVMRead_absent lib d client resources hl hno]
  exact ⟨rfl, ResourceData.Id_SetId d "", rfl, rfl, fun _ => rfl, rfl⟩

/-- C8: whenever Update builds a request body, it is the body of the partial-update
call issued once the resource ID parses; it always carries Name, Cluster and Tags
from the resource data, and each of Comments, CustomFields, Disk,
LocalContextData, Memory, Platform, Role, Status, Tenant and Vcpus holds a value
only when `d.HasChange` reports its attribute changed and is the zero value of
its type otherwise; comments changed to the empty value gives Comments " ", and
local_context_data changed to "" gives the field holding the nil map, which is
not the untouched nil field. -/
theorem vm_update_request_body (lib : Lib ρ J F T) (d : ResourceData)
    (client : NetBoxAPI ρ J F T) (body : WritableVirtualMachineWithConfigContext J F T)
    (h : resourceNetboxVirtualizationVMUpdate.params lib d = .ok body) :
    (∀ id, ParseInt d.Id = some id →
      (resourceNetboxVirtualizationVMUpdate lib d client).calls.head?
        = some (Call.VirtualizationVirtualMachinesPartialUpdate id body)) ∧
    body.Name = some (d.Get "name").toStr ∧
    body.Cluster = some (d.Get "cluster_id").toInt ∧
    body.Tags = lib.convertTagsToNestedTags (d.Get "tag").toList ∧
    (d.HasChange "comments" = false → body.Comments = "") ∧
    (d.HasChange "comments" = true → (d.Get "comments").isZero = true → body.Comments = " ") ∧
    (d.HasChange "comments" = true → (d.Get "comments").isZero = false →
      body.Comments = (d.Get "comments").toStr) ∧
    body.CustomFields
      = (if d.HasChange "custom_field" then
          some (lib.convertCustomFieldsFromTerraformToAPI (d.state "custom_field").toList
            (d.plan "custom_field").toList)
         else none) ∧
    body.Disk = (if d.HasChange "disk" then some (d.Get "disk").toInt else none) ∧
    (d.HasChange "local_context_data" = false → body.LocalContextData = none) ∧
    (d.HasChange "local_context_data" = true → (d.Get "local_context_data").toStr = "" →
      body.LocalContextData = some none) ∧
    (d.HasChange "local_context_data" = true → (d.Get "local_context_data").toStr ≠ "" →
      ∃ m, lib.jsonUnmarshal (d.Get "local_context_data").toStr = .ok m ∧
        body.LocalContextData = some m) ∧
    body.Memory = (if d.HasChange "memory" then some (d.Get "memory").toInt else none) ∧
    body.Platform
      = (if d.HasChange "platform_id" then some (d.Get "platform_id").toInt else none) ∧
    body.Role = (if d.HasChange "role_id" then some (d.Get "role_id").toInt else none) ∧
    body.Status = (if d.HasChange "status" then (d.Get "status").toStr else "") ∧
    body.Tenant = (if d.HasChange "tenant_id" then some (d.Get "tenant_id").toInt else none) ∧
    body.Vcpus
      = (if d.HasChange "vcpus" then
          some (lib.ParseFloat
            (if !containsDot (d.Get "vcpus").toStr then (d.Get "vcpus").toStr ++ ".00"
              else (d.Get "vcpus").toStr))
         else none) := by
  obtain ⟨h1, h2, h3, h4, h5, h6, h7, h8, h9, h10, h11, h12, h13⟩ :=
    resourceNetboxVirtualizationVMUpdate.params_ok lib d body h
  refine ⟨?_, h1, h2, h3, ?_, ?_, ?_, h5, h6, ?_, ?_, ?_, h7, h8, h9, h10, h11, h12⟩
  · intro id hid
    unfold resourceNetboxVirtualizationVMUpdate
    simp only [h, hid]
    split <;> rfl
  · intro hc
    simp [h4, hc]
  · intro hc hz
    simp [h4, hc, hz, ResourceData.GetOk]
  · intro hc hz
    simp [h4, hc, hz, ResourceData.GetOk]
  · intro hc
    simpa [hc] using h13
  · intro hc he
    simpa [hc, he] using h13
  · intro hc hne
    simpa [hc, hne] using h13

/-- C9: Delete first runs the existence check (one list call filtered by the
resource ID).  A delete call is issued exactly when that list call succeeds, some
listed result has an ID whose base-10 rendering is the resource ID, and the
resource ID parses as a base-10 int64; it is then the second and last request and
carries the parsed ID.  A list error is returned with no delete call; with no
matching result Delete returns no error with no delete call; an error of the
delete call is returned, and its success gives no error. -/
theorem vm_delete_spec (d : ResourceData) (client : NetBoxAPI ρ J F T) :
    ((∃ id, Call.VirtualizationVirtualMachinesDelete id
          ∈ (resourceNetboxVirtualizationVMDelete d client).calls) ↔
      ((∃ resources, client.Virtualization.VirtualizationVirtualMachinesList
            (some { ID := some d.Id, Limit := none }) = .ok resources ∧
          ∃ r ∈ resources.Payload.Results, FormatInt r.ID = d.Id) ∧
        ∃ id, ParseInt d.Id = some id)) ∧
    (∀ e, client.Virtualization.VirtualizationVirtualMachinesList
          (some { ID := some d.Id, Limit := none }) = .error e →
      (resourceNetboxVirtualizationVMDelete d client).ret = .err e ∧
      (resourceNetboxVirtualizationVMDelete d client).calls
        = [Call.List .VirtualizationVirtualMachinesList
            (some { ID := some d.Id, Limit := none })]) ∧
    (∀ resources, client.Virtualization.VirtualizationVirtualMachinesList
          (some { ID := some d.Id, Limit := none }) = .ok resources →
      (∀ r ∈ resources.Payload.Results, FormatInt r.ID ≠ d.Id) →
      (resourceNetboxVirtualizationVMDelete d client).ret = .nil ∧
      (resourceNetboxVirtualizationVMDelete d client).calls
        = [Call.List .VirtualizationVirtualMachinesList
            (some { ID := some d.Id, Limit := none })]) ∧
    (∀ resources id, client.Virtualization.VirtualizationVirtualMachinesList
          (some { ID := some d.Id, Limit := none }) = .ok resources →
      (∃ r ∈ resources.Payload.Results, FormatInt r.ID = d.Id) →
      ParseInt d.Id = some id →
      (resourceNetboxVirtualizationVMDelete d client).calls
        = [Call.List .VirtualizationVirtualMachinesList
            (some { ID := some d.Id, Limit := none }),
           Call.VirtualizationVirtualMachinesDelete id] ∧
      (resourceNetboxVirtualizationVMDelete d client).ret
        = (match client.Virtualization.VirtualizationVirtualMachinesDelete id with
           | .error e => Ret.err e
           | .ok _ => Ret.nil)) := by
  unfold resourceNetboxVirtualizationVMDelete
  rw [resourceNetboxVirtualizationVMExists_eq]
  cases hl : client.Virtualization.VirtualizationVirtualMachinesList
      (some { ID := some d.Id, Limit := none }) with
  | error e => simp
  | ok resources =>
    cases ha : resources.Payload.Results.any (fun resource => FormatInt resource.ID == d.Id) with
    | false =>
      have hno : ∀ r ∈ resources.Payload.Results, FormatInt r.ID ≠ d.Id := by
        intro r hr heq
        have : resources.Payload.Results.any (fun resource => FormatInt resource.ID == d.Id)
            = true := List.any_eq_true.mpr ⟨r, hr, by simpa using heq⟩
        rw [ha] at this
        exact Bool.noConfusion this
      simp only [ha]
      refine ⟨?_, ?_, ?_, ?_⟩
      · constructor
        · rintro ⟨id, hid⟩
          simp at hid
        · rintro ⟨⟨res, hres, r, hr, heq⟩, -⟩
          injection hres with hres
          subst hres
          exact absurd heq (hno r hr)
      · intro e he
        cases he
      · intro res hres _
        simp
      · intro res id hres hex
        injection hres with hres
        subst hres
        obtain ⟨r, hr, heq⟩ := hex
        exact absurd heq (hno r hr)
    | true =>
      have hex : ∃ r ∈ resources.Payload.Results, FormatInt r.ID = d.Id := by
        obtain ⟨r, hr, heq⟩ := List.any_eq_true.mp ha
        exact ⟨r, hr, by simpa using heq⟩
      simp only [ha]
      cases hp : ParseInt d.Id with
      | none =>
        refine ⟨?_, ?_, ?_, ?_⟩
        · simp
        · intro e he
          cases he
        · intro res hres hno
          injection hres with hres
          subst hres
          obtain ⟨r, hr, heq⟩ := hex
          exact absurd heq (hno r hr)
        · intro res id _ _ hid
          cases hid
      | some id =>
        refine ⟨?_, ?_, ?_, ?_⟩
        · constructor
          · intro _
            exact ⟨⟨resources, rfl, hex⟩, id, rfl⟩
          · intro _
            refine ⟨id, ?_⟩
            cases hdel : client.Virtualization.VirtualizationVirtualMachinesDelete id <;>
              simp [hdel]
        · intro e he
          cases he
        · intro res hres hno
          injection hres with hres
          subst hres
          obtain ⟨r, hr, heq⟩ := hex
          exact absurd heq (hno r hr)
        · intro res id2 _ _ hid
          injection hid with hid
          subst hid
          cases hdel : client.Virtualization.VirtualizationVirtualMachinesDelete id <;>
            simp [hdel]

/-- Witness for C4: the body built from `demoVMData`. -/
theorem vm_create_request_body_witness :
    resourceNetboxVirtualizationVMCreate.newResource demoLib demoVMData = .ok demoBody ∧
    ((resourceNetboxVirtualizationVMCreate demoLib demoVMData demoCreateClient).calls.head?
      = some (Call.VirtualizationVirtualMachinesCreate demoBody) ∧
    demoBody.Cluster = some (demoVMData.Get "cluster_id").toInt ∧
    demoBody.Name = some (demoVMData.Get "name").toStr ∧
    demoBody.Status = (demoVMData.Get "status").toStr ∧
    demoBody.Comments = (demoVMData.Get "comments").toStr ∧
    demoBody.CustomFields
      = some (demoLib.convertCustomFieldsFromTerraformToAPI [] (demoVMData.Get "custom_field").toList) ∧
    demoBody.Tags = demoLib.convertTagsToNestedTags (demoVMData.Get "tag").toList ∧
    ((demoBody.Disk ≠ none ↔ (demoVMData.Get "disk").toInt ≠ 0) ∧
      ((demoVMData.Get "disk").toInt ≠ 0 → demoBody.Disk = some (demoVMData.Get "disk").toInt)) ∧
    ((demoBody.Memory ≠ none ↔ (demoVMData.Get "memory").toInt ≠ 0) ∧
      ((demoVMData.Get "memory").toInt ≠ 0 → demoBody.Memory = some (demoVMData.Get "memory").toInt)) ∧
    ((demoBody.Platform ≠ none ↔ (demoVMData.Get "platform_id").toInt ≠ 0) ∧
      ((demoVMData.Get "platform_id").toInt ≠ 0 → demoBody.Platform = some (demoVMData.Get "platform_id").toInt)) ∧
    ((demoBody.Role ≠ none ↔ (demoVMData.Get "role_id").toInt ≠ 0) ∧
      ((demoVMData.Get "role_id").toInt ≠ 0 → demoBody.Role = some (demoVMData.Get "role_id").toInt)) ∧
    ((demoBody.Tenant ≠ none ↔ (demoVMData.Get "tenant_id").toInt ≠ 0) ∧
      ((demoVMData.Get "tenant_id").toInt ≠ 0 → demoBody.Tenant = some (demoVMData.Get "tenant_id").toInt))) :=
  ⟨rfl, vm_create_request_body demoLib demoVMData demoCreateClient demoBody rfl⟩

/-- Witness for C5 (amended): Create of `demoVMData` against `demoCreateClient`. -/
theorem vm_create_outcome_witness :
    resourceNetboxVirtualizationVMCreate.newResource demoLib demoVMData = .ok demoBody ∧
    ((∀ e, demoCreateClient.Virtualization.VirtualizationVirtualMachinesCreate demoBody = .error e →
      (resourceNetboxVirtualizationVMCreate demoLib demoVMData demoCreateClient).ret = .err e ∧
      (resourceNetboxVirtualizationVMCreate demoLib demoVMData demoCreateClient).calls
        = [Call.VirtualizationVirtualMachinesCreate demoBody] ∧
      (resourceNetboxVirtualizationVMCreate demoLib demoVMData demoCreateClient).d = demoVMData ∧
      (resourceNetboxVirtualizationVMCreate demoLib demoVMData demoCreateClient).d.idWrites = demoVMData.idWrites) ∧
    (∀ created, demoCreateClient.Virtualization.VirtualizationVirtualMachinesCreate demoBody = .ok created →
      (resourceNetboxVirtualizationVMCreate demoLib demoVMData demoCreateClient).ret
        = (resourceNetboxVirtualizationVMRead demoLib
            (demoVMData.SetId (FormatInt created.Payload.ID)) demoCreateClient).ret ∧
      (resourceNetboxVirtualizationVMCreate demoLib demoVMData demoCreateClient).d
        = (resourceNetboxVirtualizationVMRead demoLib
            (demoVMData.SetId (FormatInt created.Payload.ID)) demoCreateClient).d ∧
      (resourceNetboxVirtualizationVMCreate demoLib demoVMData demoCreateClient).calls
        = [Call.VirtualizationVirtualMachinesCreate demoBody,
           Call.List .VirtualizationVirtualMachinesList
             (some { ID := some (FormatInt created.Payload.ID), Limit := none })] ∧
      (∃ rest, (resourceNetboxVirtualizationVMCreate demoLib demoVMData demoCreateClient).d.idWrites
        = demoVMData.idWrites ++ FormatInt created.Payload.ID :: rest) ∧
      ((∃ resources, demoCreateClient.Virtualization.VirtualizationVirtualMachinesList
            (some { ID := some (FormatInt created.Payload.ID), Limit := none }) = .ok resources ∧
          ∀ r ∈ resources.Payload.Results, FormatInt r.ID ≠ FormatInt created.Payload.ID) →
        (resourceNetboxVirtualizationVMCreate demoLib demoVMData demoCreateClient).d.Id = "" ∧
        (resourceNetboxVirtualizationVMCreate demoLib demoVMData demoCreateClient).ret = .nil) ∧
      (¬ (∃ resources, demoCreateClient.Virtualization.VirtualizationVirtualMachinesList
            (some { ID := some (FormatInt created.Payload.ID), Limit := none }) = .ok resources ∧
          ∀ r ∈ resources.Payload.Results, FormatInt r.ID ≠ FormatInt created.Payload.ID) →
        (resourceNetboxVirtualizationVMCreate demoLib demoVMData demoCreateClient).d.Id
          = FormatInt created.Payload.ID))) :=
  ⟨rfl, vm_create_outcome demoLib demoVMData demoCreateClient demoBody rfl⟩

/-- Counterexample for C5 as stated: the create call succeeds with ID 7, the
follow-up Read finds no virtual machine 7 in the list answer and resets the ID,
so on return the resource ID is "" and not "7". -/
theorem vm_create_id_reset :
    resourceNetboxVirtualizationVMCreate.newResource demoLib demoVMData = .ok demoBody ∧
    (demoCreateClient.Virtualization.VirtualizationVirtualMachinesCreate demoBody).toOption.map
        (fun created => FormatInt created.Payload.ID) = some "7" ∧
    (resourceNetboxVirtualizationVMCreate demoLib demoVMData demoCreateClient).ret = .nil ∧
    (resourceNetboxVirtualizationVMCreate demoLib demoVMData demoCreateClient).d.idWrites
      = ["7", ""] ∧
    (resourceNetboxVirtualizationVMCreate demoLib demoVMData demoCreateClient).d.Id = "" ∧
    (resourceNetboxVirtualizationVMCreate demoLib demoVMData demoCreateClient).d.Id ≠ "7" := by
  refine ⟨rfl, rfl, rfl, rfl, rfl, ?_⟩
  decide

/-- Witness for C6 (amended): Read of virtual machine "7" against a client that
lists it with cluster 3 and status "active". -/
theorem vm_read_sets_witness :
    demoReadClient.Virtualization.VirtualizationVirtualMachinesList
        (some { ID := some demoReadData.Id, Limit := none })
      = .ok ⟨⟨[demoVM 7 none (some 2)]⟩⟩ ∧
    [demoVM 7 none (some 2)].find? (fun x => FormatInt x.ID == demoReadData.Id)
      = some (demoVM 7 none (some 2)) ∧
    (demoVM 7 none (some 2)).Cluster = some demoCluster ∧
    (demoVM 7 none (some 2)).Status = some demoStatus ∧
    ((∀ j e, (demoVM 7 none (some 2)).LocalContextData = some j → (demoLib.jsonMarshal j).2 = some e →
      (resourceNetboxVirtualizationVMRead demoLib demoReadData demoReadClient).ret = .err e ∧
      (resourceNetboxVirtualizationVMRead demoLib demoReadData demoReadClient).d.writes
        = demoReadData.writes ++
          [("cluster_id", .int demoCluster.ID),
           ("comments", if (demoVM 7 none (some 2)).Comments = "" then .null else .str (demoVM 7 none (some 2)).Comments),
           ("content_type", .str (demoLib.convertURIContentType (demoVM 7 none (some 2)).URL)),
           ("custom_field", .set (demoLib.updateCustomFieldsFromAPI (demoReadData.Get "custom_field").toList
              (demoVM 7 none (some 2)).CustomFields)),
           ("disk", .ofInt64Ptr (demoVM 7 none (some 2)).Disk)]) ∧
    ((∀ j, (demoVM 7 none (some 2)).LocalContextData = some j → (demoLib.jsonMarshal j).2 = none) →
      (∃ rest, (∀ w ∈ rest, w.1 = "vcpus") ∧
        (resourceNetboxVirtualizationVMRead demoLib demoReadData demoReadClient).d.writes
          = demoReadData.writes ++
            [("cluster_id", .int demoCluster.ID),
             ("comments", if (demoVM 7 none (some 2)).Comments = "" then .null else .str (demoVM 7 none (some 2)).Comments),
             ("content_type", .str (demoLib.convertURIContentType (demoVM 7 none (some 2)).URL)),
             ("custom_field", .set (demoLib.updateCustomFieldsFromAPI
                (demoReadData.Get "custom_field").toList (demoVM 7 none (some 2)).CustomFields)),
             ("disk", .ofInt64Ptr (demoVM 7 none (some 2)).Disk),
             ("local_context_data",
                match (demoVM 7 none (some 2)).LocalContextData with
                | some j => .str (demoLib.jsonMarshal j).1
                | none => .str ""),
             ("memory", .ofInt64Ptr (demoVM 7 none (some 2)).Memory),
             ("name", .ofStringPtr (demoVM 7 none (some 2)).Name),
             ("platform_id",
                match (demoVM 7 none (some 2)).Platform with
                | some platform => .int platform.ID
                | none => .int 0),
             ("role_id",
                match (demoVM 7 none (some 2)).Role with
                | some role => .int role.ID
                | none => .int 0),
             ("status", .ofStringPtr demoStatus.Value),
             ("tag", .set (demoLib.convertNestedTagsToTags (demoVM 7 none (some 2)).Tags)),
             ("tenant_id",
                match (demoVM 7 none (some 2)).Tenant with
                | some tenant => .int tenant.ID
                | none => .int 0)] ++ rest) ∧
      (resourceNetboxVirtualizationVMRead demoLib demoReadData demoReadClient).d.Get "platform_id"
        = (match (demoVM 7 none (some 2)).Platform with
           | some platform => .int platform.ID
           | none => .int 0) ∧
      (resourceNetboxVirtualizationVMRead demoLib demoReadData demoReadClient).d.Get "role_id"
        = (match (demoVM 7 none (some 2)).Role with
           | some role => .int role.ID
           | none => .int 0) ∧
      (resourceNetboxVirtualizationVMRead demoLib demoReadData demoReadClient).d.Get "tenant_id"
        = (match (demoVM 7 none (some 2)).Tenant with
           | some tenant => .int tenant.ID
           | none => .int 0) ∧
      (resourceNetboxVirtualizationVMRead demoLib demoReadData demoReadClient).d.Get "comments"
        = (if (demoVM 7 none (some 2)).Comments = "" then .null else .str (demoVM 7 none (some 2)).Comments) ∧
      (resourceNetboxVirtualizationVMRead demoLib demoReadData demoReadClient).d.Get "local_context_data"
        = (match (demoVM 7 none (some 2)).LocalContextData with
           | some j => .str (demoLib.jsonMarshal j).1
           | none => .str "") ∧
      (resourceNetboxVirtualizationVMRead demoLib demoReadData demoReadClient).d.Get "cluster_id"
        = .int demoCluster.ID ∧
      (resourceNetboxVirtualizationVMRead demoLib demoReadData demoReadClient).d.Get "name"
        = .ofStringPtr (demoVM 7 none (some 2)).Name ∧
      (resourceNetboxVirtualizationVMRead demoLib demoReadData demoReadClient).d.Get "disk"
        = .ofInt64Ptr (demoVM 7 none (some 2)).Disk ∧
      (resourceNetboxVirtualizationVMRead demoLib demoReadData demoReadClient).d.Get "memory"
        = .ofInt64Ptr (demoVM 7 none (some 2)).Memory ∧
      (resourceNetboxVirtualizationVMRead demoLib demoReadData demoReadClient).d.Get "status"
        = .ofStringPtr demoStatus.Value)) :=
  ⟨rfl, rfl, rfl, rfl, vm_read_sets demoLib demoReadData demoReadClient
    ⟨⟨[demoVM 7 none (some 2)]⟩⟩ (demoVM 7 none (some 2)) demoCluster demoStatus
    rfl rfl rfl rfl⟩

/-- Counterexample for C6 as stated.  First run: the list answer holds virtual
machine 7, matching the resource ID "7", with platform 5 but a nil cluster; the
dereference at line 230 panics and no attribute is written, platform_id
included.  Second run: the same virtual machine with its cluster but a nil
status; the dereference at line 301 panics after role_id is written, and status,
tag and tenant_id are never written. -/
theorem vm_read_nil_pointer :
    demoReadData.Id = "7" ∧
    (demoNoClusterClient.Virtualization.VirtualizationVirtualMachinesList
        (some { ID := some demoReadData.Id, Limit := none })).toOption.map
        (fun resources => resources.Payload.Results.map
          (fun resource => (FormatInt resource.ID, resource.Cluster, resource.Platform)))
      = some [("7", none, some ⟨5⟩)] ∧
    (resourceNetboxVirtualizationVMRead demoLib demoReadData demoNoClusterClient).ret
      = .panic ∧
    (resourceNetboxVirtualizationVMRead demoLib demoReadData demoNoClusterClient).d.writes
      = [] ∧
    (resourceNetboxVirtualizationVMRead demoLib demoReadData demoNoClusterClient).d.Get
        "platform_id" ≠ .int 5 ∧
    (demoNoStatusClient.Virtualization.VirtualizationVirtualMachinesList
        (some { ID := some demoReadData.Id, Limit := none })).toOption.map
        (fun resources => resources.Payload.Results.map
          (fun resource => (FormatInt resource.ID, resource.Status, resource.Tenant)))
      = some [("7", none, none)] ∧
    (resourceNetboxVirtualizationVMRead demoLib demoReadData demoNoStatusClient).ret
      = .panic ∧
    (resourceNetboxVirtualizationVMRead demoLib demoReadData demoNoStatusClient).d.writes.map
        Prod.fst
      = ["cluster_id", "comments", "content_type", "custom_field", "disk",
         "local_context_data", "memory", "name", "platform_id", "role_id"] ∧
    (resourceNetboxVirtualizationVMRead demoLib demoReadData demoNoStatusClient).d.Get
        "tenant_id" ≠ .int 0 := by
  refine ⟨rfl, rfl, rfl, rfl, ?_, rfl, rfl, rfl, ?_⟩ <;> decide

/-- Witness for C7: Read of virtual machine "7" against a client that lists
virtual machine 8 only. -/
theorem vm_read_absent_witness :
    demoOtherClient.Virtualization.VirtualizationVirtualMachinesList
        (some { ID := some demoReadData.Id, Limit := none })
      = .ok ⟨⟨[demoVM 8 none (some 2)]⟩⟩ ∧
    (∀ r ∈ [demoVM 8 none (some 2)], FormatInt r.ID ≠ demoReadData.Id) ∧
    ((resourceNetboxVirtualizationVMRead demoLib demoReadData demoOtherClient).ret = .nil ∧
    (resourceNetboxVirtualizationVMRead demoLib demoReadData demoOtherClient).d.Id = "" ∧
    (resourceNetboxVirtualizationVMRead demoLib demoReadData demoOtherClient).d.idWrites = demoReadData.idWrites ++ [""] ∧
    (resourceNetboxVirtualizationVMRead demoLib demoReadData demoOtherClient).d.writes = demoReadData.writes ∧
    (∀ key, (resourceNetboxVirtualizationVMRead demoLib demoReadData demoOtherClient).d.Get key = demoReadData.Get key) ∧
    (resourceNetboxVirtualizationVMRead demoLib demoReadData demoOtherClient).calls
      = [Call.List .VirtualizationVirtualMachinesList
          (some { ID := some demoReadData.Id, Limit := none })]) :=
  have hno : ∀ r ∈ [demoVM 8 none (some 2)], FormatInt r.ID ≠ demoReadData.Id := by
    intro r hr
    rw [List.mem_singleton] at hr
    subst hr
    decide
  ⟨rfl, hno, vm_read_absent demoLib demoReadData demoOtherClient
    ⟨⟨[demoVM 8 none (some 2)]⟩⟩ rfl hno⟩

/-- Witness for C8: the body built from `demoUpdateData`, where comments and
local context data are removed and disk is changed. -/
theorem vm_update_request_body_witness :
    resourceNetboxVirtualizationVMUpdate.params demoLib demoUpdateData = .ok demoUpdateBody ∧
    ((∀ id, ParseInt demoUpdateData.Id = some id →
      (resourceNetboxVirtualizationVMUpdate demoLib demoUpdateData demoReadClient).calls.head?
        = some (Call.VirtualizationVirtualMachinesPartialUpdate id demoUpdateBody)) ∧
    demoUpdateBody.Name = some (demoUpdateData.Get "name").toStr ∧
    demoUpdateBody.Cluster = some (demoUpdateData.Get "cluster_id").toInt ∧
    demoUpdateBody.Tags = demoLib.convertTagsToNestedTags (demoUpdateData.Get "tag").toList ∧
    (demoUpdateData.HasChange "comments" = false → demoUpdateBody.Comments = "") ∧
    (demoUpdateData.HasChange "comments" = true → (demoUpdateData.Get "comments").isZero = true → demoUpdateBody.Comments = " ") ∧
    (demoUpdateData.HasChange "comments" = true → (demoUpdateData.Get "comments").isZero = false →
      demoUpdateBody.Comments = (demoUpdateData.Get "comments").toStr) ∧
    demoUpdateBody.CustomFields
      = (if demoUpdateData.HasChange "custom_field" then
          some (demoLib.convertCustomFieldsFromTerraformToAPI (demoUpdateData.state "custom_field").toList
            (demoUpdateData.plan "custom_field").toList)
         else none) ∧
    demoUpdateBody.Disk = (if demoUpdateData.HasChange "disk" then some (demoUpdateData.Get "disk").toInt else none) ∧
    (demoUpdateData.HasChange "local_context_data" = false → demoUpdateBody.LocalContextData = none) ∧
    (demoUpdateData.HasChange "local_context_data" = true → (demoUpdateData.Get "local_context_data").toStr = "" →
      demoUpdateBody.LocalContextData = some none) ∧
    (demoUpdateData.HasChange "local_context_data" = true → (demoUpdateData.Get "local_context_data").toStr ≠ "" →
      ∃ m, demoLib.jsonUnmarshal (demoUpdateData.Get "local_context_data").toStr = .ok m ∧
        demoUpdateBody.LocalContextData = some m) ∧
    demoUpdateBody.Memory = (if demoUpdateData.HasChange "memory" then some (demoUpdateData.Get "memory").toInt else none) ∧
    demoUpdateBody.Platform
      = (if demoUpdateData.HasChange "platform_id" then some (demoUpdateData.Get "platform_id").toInt else none) ∧
    demoUpdateBody.Role = (if demoUpdateData.HasChange "role_id" then some (demoUpdateData.Get "role_id").toInt else none) ∧
    demoUpdateBody.Status = (if demoUpdateData.HasChange "status" then (demoUpdateData.Get "status").toStr else "") ∧
    demoUpdateBody.Tenant = (if demoUpdateData.HasChange "tenant_id" then some (demoUpdateData.Get "tenant_id").toInt else none) ∧
    demoUpdateBody.Vcpus
      = (if demoUpdateData.HasChange "vcpus" then
          some (demoLib.ParseFloat
            (if !containsDot (demoUpdateData.Get "vcpus").toStr then (demoUpdateData.Get "vcpus").toStr ++ ".00"
              else (demoUpdateData.Get "vcpus").toStr))
         else none)) :=
  ⟨rfl, vm_update_request_body demoLib demoUpdateData demoReadClient demoUpdateBody rfl⟩

/-- The string Create tests against "" at line 197 is never empty: it either holds a
dot or has had ".00" appended. -/
theorem resourceNetboxVirtualizationVMCreate.vcpus_guard_dead (vcpus : String) :
    (if !containsDot vcpus then vcpus ++ ".00" else vcpus) ≠ "" := by
  cases hc : containsDot vcpus with
  | false =>
    intro h
    have hl := congrArg String.length h
    have h3 : ".00".length = 3 := rfl
    have h0 : "".length = 0 := rfl
    simp only [Bool.not_false, if_true, String.length_append, h3, h0] at hl
    omega
  | true =>
    intro h
    simp at h
    subst h
    exact absurd hc (by decide)

/-- Every request body Create builds carries a Vcpus value. -/
theorem resourceNetboxVirtualizationVMCreate.newResource_vcpus (lib : Lib ρ J F T)
    (d : ResourceData) (body : WritableVirtualMachineWithConfigContext J F T)
    (h : resourceNetboxVirtualizationVMCreate.newResource lib d = .ok body) :
    body.Vcpus
      = some (lib.ParseFloat
          (if !containsDot (d.Get "vcpus").toStr then (d.Get "vcpus").toStr ++ ".00"
            else (d.Get "vcpus").toStr)) := by
  have hv := (resourceNetboxVirtualizationVMCreate.newResource_ok lib d body h).2.2.2.2.2.2.2.2.2.2.2.1
  rw [hv, if_neg (resourceNetboxVirtualizationVMCreate.vcpus_guard_dead _)]

/-- C11: at a configuration whose vcpus is the empty string, Create builds a request
body whose Vcpus is set, to what `strconv.ParseFloat` returns for ".00", and
sends it: the claim that such a body has no Vcpus value fails on the code. -/
theorem vm_create_unset_vcpus_sent :
    (demoNoVcpusData.Get "vcpus").toStr = "" ∧
    resourceNetboxVirtualizationVMCreate.newResource demoLib demoNoVcpusData
      = .ok demoNoVcpusBody ∧
    demoNoVcpusBody.Vcpus = some (demoLib.ParseFloat ".00") ∧
    demoNoVcpusBody.Vcpus ≠ none ∧
    (resourceNetboxVirtualizationVMCreate demoLib demoNoVcpusData demoDownClient).calls
      = [Call.VirtualizationVirtualMachinesCreate demoNoVcpusBody] := by
  refine ⟨rfl, rfl, rfl, ?_, rfl⟩
  decide

end VirtualMachineTheorems

/-! ## Generated parameters: SetDefaults -/

/-- C10: at parameters with Data and ID filled in, `SetDefaults` and `WithDefaults`
hand back the receiver unchanged: ID is still 5 and Data still set, where the
comment on both methods says values with no default are reset to zero. -/
theorem dcim_cables_update_defaults_keep_values :
    demoCableParams.ID = 5 ∧ demoCableParams.Data = some "cable" ∧
    demoCableParams.SetDefaults.ID = 5 ∧
    demoCableParams.SetDefaults.Data = some "cable" ∧
    demoCableParams.WithDefaults.ID = 5 ∧
    demoCableParams.WithDefaults.Data = some "cable" ∧
    demoCableParams.SetDefaults.ID ≠ 0 ∧
    demoCableParams.SetDefaults.Data ≠ none := by
  refine ⟨rfl, rfl, rfl, rfl, rfl, rfl, ?_, ?_⟩ <;> decide

end Netbox
